import Mathlib

/-
Verification of the CRUD route handlers of the movies/theaters/comments
REST API.  The TypeScript route handlers, the MongoDB collection
operations they invoke, and the zod schemas they validate against are
shallowly embedded as pure Lean functions.  Each handler is a function
from its request inputs and the database state to a response envelope, a
new database state, and the number of database operations performed.
Throwing operations (JSON body parsing, ObjectId hex conversion, zod
parse) are modelled with Except; each handler is its try-block semantics
wrapped in the catch-block recovery of the source file.
-/

set_option autoImplicit false

namespace CrudApi

/-- BSON-ish value model: the JSON values a request body can carry plus
the two BSON types the handlers construct in memory (ObjectId values and
Date values).  An ObjectId is represented by its lowercase 24-hex string. -/
inductive Json where
  | null
  | bool (b : Bool)
  | num (n : Int)
  | str (s : String)
  | oid (id : String)
  | date (ms : Int)
  | arr (elems : List Json)
  | obj (fields : List (String × Json))

mutual

/-- Structural boolean equality on Json values (BSON value equality). -/
def Json.beq : Json → Json → Bool
  | .null, .null => true
  | .bool a, .bool b => a == b
  | .num a, .num b => a == b
  | .str a, .str b => a == b
  | .oid a, .oid b => a == b
  | .date a, .date b => a == b
  | .arr xs, .arr ys => beqJsonList xs ys
  | .obj fs, .obj gs => beqJsonFields fs gs
  | _, _ => false

/-- Elementwise equality of Json lists. -/
def beqJsonList : List Json → List Json → Bool
  | [], [] => true
  | x :: xs, y :: ys => Json.beq x y && beqJsonList xs ys
  | _, _ => false

/-- Elementwise equality of Json field lists. -/
def beqJsonFields : List (String × Json) → List (String × Json) → Bool
  | [], [] => true
  | (k, v) :: xs, (l, w) :: ys => k == l && Json.beq v w && beqJsonFields xs ys
  | _, _ => false

end

instance : BEq Json := ⟨Json.beq⟩

/-- First binding of a key in a JS-object field list. -/
def lookupField : List (String × Json) → String → Option Json
  | [], _ => none
  | (k, v) :: rest, key => if k = key then some v else lookupField rest key

/-- Read a top-level property of a JS object; non-objects have no properties. -/
def Json.getField (j : Json) (key : String) : Option Json :=
  match j with
  | .obj fs => lookupField fs key
  | _ => none

/-- Follow a dotted field path, as MongoDB query keys such as
"location.address.street1" do. -/
def Json.getPath : Json → List String → Option Json
  | j, [] => some j
  | j, k :: rest =>
    match j.getField k with
    | some v => v.getPath rest
    | none => none

/-- Set a key in a field list: overwrite in place (JS objects keep the
original key position on assignment), append if absent. -/
def setFieldList : List (String × Json) → String → Json → List (String × Json)
  | [], key, v => [(key, v)]
  | (k, w) :: rest, key, v =>
    if k = key then (k, v) :: rest else (k, w) :: setFieldList rest key v

/-- JS property assignment / object-spread override on a value.  Spreading
into a non-object is modelled as leaving the value unchanged; every
handler only ever reaches this with object bodies on its proved paths. -/
def Json.setField (j : Json) (key : String) (v : Json) : Json :=
  match j with
  | .obj fs => .obj (setFieldList fs key v)
  | other => other

/-- JS rest-destructuring that drops one property, as in
`const \x7b_id, ...rest\x7d = x`. -/
def Json.removeField (j : Json) (key : String) : Json :=
  match j with
  | .obj fs => .obj (fs.filter (fun kv => kv.1 != key))
  | other => other

/-- Top-level fields of an object value. -/
def Json.objFields : Json → List (String × Json)
  | .obj fs => fs
  | _ => []

/-- Hex digit test used by the BSON ObjectId string checks. -/
def isHexChar (c : Char) : Bool :=
  c.isDigit || (c ≥ 'a' && c ≤ 'f') || (c ≥ 'A' && c ≤ 'F')

/-- Model of bson ObjectId.isValid on strings: any 12-character string
(taken as 12 raw bytes) or a 24-character hex string. -/
def isValidObjectId (s : String) : Bool :=
  s.length == 12 || (s.length == 24 && s.toList.all isHexChar)

/-- Lowercase a hex digit, as parsing a hex string into ObjectId bytes
makes uppercase and lowercase spellings equal. -/
def hexCharLower (c : Char) : Char :=
  if c = 'A' then 'a'
  else if c = 'B' then 'b'
  else if c = 'C' then 'c'
  else if c = 'D' then 'd'
  else if c = 'E' then 'e'
  else if c = 'F' then 'f'
  else c

/-- Model of bson ObjectId.createFromHexString: succeeds exactly on
24-character hex strings, normalising to lowercase (byte equality of the
resulting ObjectIds); anything else throws (modelled as none). -/
def createFromHexString (s : String) : Option String :=
  if s.length == 24 && s.toList.all isHexChar then
    some (String.mk (s.toList.map hexCharLower))
  else none

/-- A MongoDB equality condition: dotted field path and required value. -/
abbrev Cond := List String × Json

/-- A document matches a condition when the path resolves to exactly the
queried value. -/
def matchesCond (doc : Json) (c : Cond) : Bool :=
  match doc.getPath c.1 with
  | some v => Json.beq v c.2
  | none => false

/-- A document matches a query when it matches every condition. -/
def matchesQuery (doc : Json) (q : List Cond) : Bool :=
  q.all (matchesCond doc)

/-- Model of collection.find(query).toArray(): all matching documents in
natural (insertion) order. -/
def mongoFind (docs : List Json) (q : List Cond) : List Json :=
  docs.filter (matchesQuery · q)

/-- Model of collection.findOne(query): first matching document. -/
def mongoFindOne (docs : List Json) (q : List Cond) : Option Json :=
  docs.find? (matchesQuery · q)

/-- Apply a $set update document: assign each listed top-level field. -/
def applySet (doc : Json) (upd : List (String × Json)) : Json :=
  upd.foldl (fun d kv => d.setField kv.1 kv.2) doc

/-- Model of collection.updateOne(query, \x7b$set: upd\x7d): update the first
matching document, returning the new collection and matchedCount. -/
def mongoUpdateOne : List Json → List Cond → List (String × Json) → List Json × Nat
  | [], _, _ => ([], 0)
  | d :: rest, q, upd =>
    if matchesQuery d q then (applySet d upd :: rest, 1)
    else
      let r := mongoUpdateOne rest q upd
      (d :: r.1, r.2)

/-- Model of collection.deleteOne(query): remove the first matching
document, returning the new collection and deletedCount. -/
def mongoDeleteOne : List Json → List Cond → List Json × Nat
  | [], _ => ([], 0)
  | d :: rest, q =>
    if matchesQuery d q then (rest, 1)
    else
      let r := mongoDeleteOne rest q
      (d :: r.1, r.2)

/-- Model of collection.insertOne(doc): append the document; when it has
no _id the driver generates one (the freshId parameter).  Returns the new
collection and the insertedId value. -/
def mongoInsertOne (docs : List Json) (doc : Json) (freshId : String) : List Json × Json :=
  match doc.getField "_id" with
  | some v => (docs ++ [doc], v)
  | none => (docs ++ [doc.setField "_id" (.oid freshId)], .oid freshId)

/-- The numeric theaterId of a theater document, when it has one. -/
def numKey (d : Json) : Option Int :=
  match d.getField "theaterId" with
  | some (.num n) => some n
  | _ => none

/-- Keep the strictly-larger of two documents by theaterId; documents
without a numeric theaterId sort lowest, ties keep the earlier document. -/
def pickLatest (a b : Json) : Json :=
  match numKey b, numKey a with
  | some nb, some na => if nb > na then b else a
  | some _, none => b
  | _, _ => a

/-- Model of find(\x7b\x7d).sort(\x7btheaterId: -1\x7d).limit(1).toArray() on a theater
collection whose documents carry numeric theaterIds: the document with
the largest theaterId, none on an empty collection. -/
def latestTheater (docs : List Json) : Option Json :=
  match docs with
  | [] => none
  | d :: rest => some (rest.foldl pickLatest d)

/-- The database: the three document collections the API touches. -/
structure DB where
  movies : List Json
  theaters : List Json
  comments : List Json

/-- One field of a zod object schema: its key, whether it is required,
and its value validator.  The validator returns the validated value (zod
returns a fresh object holding exactly the schema fields). -/
structure FieldSpec where
  name : String
  required : Bool
  check : Json → Option Json

/-- Run the field specs of a zod object schema against the fields of the
input object: collect the names of offending fields and the validated
output fields, in schema declaration order. -/
def runSpecs (fs : List (String × Json)) : List FieldSpec → List String × List (String × Json)
  | [] => ([], [])
  | sp :: rest =>
    let r := runSpecs fs rest
    match lookupField fs sp.name with
    | none => if sp.required then (sp.name :: r.1, r.2) else r
    | some v =>
      match sp.check v with
      | none => (sp.name :: r.1, r.2)
      | some v2 => (r.1, (sp.name, v2) :: r.2)

/-- Model of z.object(...).parse: reject non-objects, validate every
field, strip unknown keys, and return the issues on failure. -/
def parseObj (specs : List FieldSpec) (j : Json) : Except (List String) Json :=
  match j with
  | .obj fs =>
    let r := runSpecs fs specs
    if r.1 = [] then .ok (.obj r.2) else .error r.1
  | _ => .error ["expected object"]

/-- Model of z.string(). -/
def chkStr : Json → Option Json
  | .str s => some (.str s)
  | _ => none

/-- Model of z.number(). -/
def chkNum : Json → Option Json
  | .num n => some (.num n)
  | _ => none

/-- Model of z.literal(s) on strings. -/
def chkLit (s : String) : Json → Option Json :=
  fun j =>
    match j with
    | .str t => if t = s then some (.str t) else none
    | _ => none

/-- Model of z.instanceof(ObjectId). -/
def chkOid : Json → Option Json
  | .oid i => some (.oid i)
  | _ => none

/-- String test for array-of-string checks. -/
def isStrJson : Json → Bool
  | .str _ => true
  | _ => false

/-- Model of z.array(z.string()). -/
def chkArrStr : Json → Option Json
  | .arr xs => if xs.all isStrJson then some (.arr xs) else none
  | _ => none

/-- Model of z.tuple([z.number(), z.number()]). -/
def chkPairNum : Json → Option Json
  | .arr [.num a, .num b] => some (.arr [.num a, .num b])
  | _ => none

/-- Split a character list at every occurrence of a separator. -/
def splitOnChar (sep : Char) : List Char → List (List Char)
  | [] => [[]]
  | c :: rest =>
    let r := splitOnChar sep rest
    if c = sep then [] :: r
    else
      match r with
      | [] => [[c]]
      | g :: gs => (c :: g) :: gs

/-- Simplified model of the zod email string format check: one @ sign,
a nonempty local part, and a nonempty domain containing a dot that is
neither its first nor its last character. -/
def isEmailStr (s : String) : Bool :=
  match splitOnChar '@' s.toList with
  | [l, d] =>
    !l.isEmpty && !d.isEmpty && d.contains '.' &&
      d.head? != some '.' && d.getLast? != some '.'
  | _ => false

/-- Model of z.string().email(). -/
def chkEmail : Json → Option Json
  | .str s => if isEmailStr s then some (.str s) else none
  | _ => none

/-- Model of the comment schema date field, z.preprocess(toDate, z.date()):
accepts a Date value.  The handlers always construct this field as
new Date(), so the string-to-date conversion branch of the preprocess is
never reached and strings are not modelled as parseable dates. -/
def chkDateVal : Json → Option Json
  | .date ms => some (.date ms)
  | _ => none

/-- Nested z.object validator. -/
def chkNested (specs : List FieldSpec) : Json → Option Json :=
  fun j => (parseObj specs j).toOption

/-- The released / lastUpdated shape z.object(\x7b$date: z.number()\x7d). -/
def dollarDateSpecs : List FieldSpec := [⟨"$date", true, chkNum⟩]

/-- awards subschema of the movie schema. -/
def awardsSpecs : List FieldSpec :=
  [⟨"wins", false, chkNum⟩, ⟨"nominations", false, chkNum⟩, ⟨"text", false, chkStr⟩]

/-- imdb subschema of the movie schema. -/
def imdbSpecs : List FieldSpec :=
  [⟨"rating", false, chkNum⟩, ⟨"votes", false, chkNum⟩, ⟨"id", false, chkNum⟩]

/-- viewer / critic subschema of the tomatoes subschema. -/
def tomatoesSideSpecs : List FieldSpec :=
  [⟨"rating", false, chkNum⟩, ⟨"numReviews", false, chkNum⟩, ⟨"meter", false, chkNum⟩]

/-- tomatoes subschema of the movie schema. -/
def tomatoesSpecs : List FieldSpec :=
  [⟨"viewer", false, chkNested tomatoesSideSpecs⟩,
   ⟨"critic", false, chkNested tomatoesSideSpecs⟩,
   ⟨"fresh", false, chkNum⟩,
   ⟨"rotten", false, chkNum⟩,
   ⟨"lastUpdated", false, chkNested dollarDateSpecs⟩]

/-- movieSchema from app/schemas/movieSchema: optional _id instanceof
ObjectId, required plot, genres, num_mflix_comments, title, year, the
rest optional. -/
def movieSpecs : List FieldSpec :=
  [⟨"_id", false, chkOid⟩,
   ⟨"plot", true, chkStr⟩,
   ⟨"genres", true, chkArrStr⟩,
   ⟨"runtime", false, chkNum⟩,
   ⟨"cast", false, chkArrStr⟩,
   ⟨"num_mflix_comments", true, chkNum⟩,
   ⟨"title", true, chkStr⟩,
   ⟨"fullplot", false, chkStr⟩,
   ⟨"languages", false, chkArrStr⟩,
   ⟨"released", false, chkNested dollarDateSpecs⟩,
   ⟨"directors", false, chkArrStr⟩,
   ⟨"rated", false, chkStr⟩,
   ⟨"awards", false, chkNested awardsSpecs⟩,
   ⟨"year", true, chkNum⟩,
   ⟨"imdb", false, chkNested imdbSpecs⟩,
   ⟨"countries", false, chkArrStr⟩,
   ⟨"type", false, chkStr⟩,
   ⟨"tomatoes", false, chkNested tomatoesSpecs⟩]

/-- movieSchema.parse / safeParse. -/
def movieParse (j : Json) : Except (List String) Json := parseObj movieSpecs j

/-- address subschema of theaterSchema. -/
def addressSpecs : List FieldSpec :=
  [⟨"street1", true, chkStr⟩, ⟨"city", true, chkStr⟩,
   ⟨"state", true, chkStr⟩, ⟨"zipcode", true, chkStr⟩]

/-- geo subschema of theaterSchema. -/
def geoSpecs : List FieldSpec :=
  [⟨"type", true, chkLit "Point"⟩, ⟨"coordinates", true, chkPairNum⟩]

/-- location subschema of theaterSchema. -/
def locationSpecs : List FieldSpec :=
  [⟨"address", true, chkNested addressSpecs⟩, ⟨"geo", true, chkNested geoSpecs⟩]

/-- theaterSchema from app/schemas/theaterSchema. -/
def theaterSpecs : List FieldSpec :=
  [⟨"_id", false, chkOid⟩, ⟨"theaterId", true, chkNum⟩,
   ⟨"location", true, chkNested locationSpecs⟩]

/-- theaterSchema.parse. -/
def theaterParse (j : Json) : Except (List String) Json := parseObj theaterSpecs j

/-- theaterUpdateSchema = theaterSchema.omit(\x7b_id, theaterId\x7d). -/
def theaterUpdateSpecs : List FieldSpec :=
  [⟨"location", true, chkNested locationSpecs⟩]

/-- theaterUpdateSchema.parse. -/
def theaterUpdateParse (j : Json) : Except (List String) Json := parseObj theaterUpdateSpecs j

/-- commentSchema.omit(\x7b_id\x7d), used by the comment POST handler. -/
def commentNoIdSpecs : List FieldSpec :=
  [⟨"name", true, chkStr⟩, ⟨"email", true, chkEmail⟩,
   ⟨"movie_id", true, chkOid⟩, ⟨"text", true, chkStr⟩,
   ⟨"date", true, chkDateVal⟩]

/-- commentSchema.omit(\x7b_id\x7d).parse. -/
def commentNoIdParse (j : Json) : Except (List String) Json := parseObj commentNoIdSpecs j

/-- commentSchema.pick(\x7bname, email, text\x7d), used by the comment PUT
handler. -/
def commentPickSpecs : List FieldSpec :=
  [⟨"name", true, chkStr⟩, ⟨"email", true, chkEmail⟩, ⟨"text", true, chkStr⟩]

/-- commentSchema.pick(\x7bname, email, text\x7d).parse. -/
def commentPickParse (j : Json) : Except (List String) Json := parseObj commentPickSpecs j

/-- The exceptions a handler body can raise: a ZodError from .parse, a
BSONError from ObjectId.createFromHexString, or a body-read error from
request.json(). -/
inductive Exc where
  | zodErr (issues : List String)
  | bsonErr (msg : String)
  | jsonReadErr (msg : String)

/-- The catch blocks test error.name === ZodError. -/
def Exc.isZod : Exc → Bool
  | .zodErr _ => true
  | _ => false

/-- Model of ZodError.message: a rendering of the issues. -/
def zodMessage (issues : List String) : String := String.intercalate "; " issues

/-- The error.message the catch blocks put in the envelope. -/
def Exc.message : Exc → String
  | .zodErr is => zodMessage is
  | .bsonErr m => m
  | .jsonReadErr m => m

/-- Message of the BSONError thrown by createFromHexString. -/
def bsonHexMsg : String := "input must be a 24 character hex string"

/-- Message of the error thrown by request.json() on an unreadable body. -/
def jsonReadMsg : String := "Unexpected end of JSON input"

/-- The JSON response envelope: status plus the optional message, data,
error and errors fields the handlers populate. -/
structure Resp where
  status : Int
  message : Option String := none
  data : Option Json := none
  error : Option String := none
  errors : Option Json := none

/-- Result of one handler run: envelope, database state after the run,
and the number of database operations performed. -/
abbrev HRes := Resp × DB × Nat

/-- ZodError issues as the JSON array the envelopes carry. -/
def issuesJson (is : List String) : Json := .arr (is.map Json.str)

/-- The uniform 500 envelope of the catch blocks. -/
def resp500 (e : Exc) : Resp :=
  { status := 500, message := some "Internal Server Error", error := some e.message }

/-- The 405 envelope of the unsupported-method handlers. -/
def resp405 (m : String) : Resp :=
  { status := 405, message := some "Method Not Allowed", error := some m }

/-- The 400 envelope of the catch blocks that special-case ZodError with
an issues array. -/
def respZodArr (is : List String) : Resp :=
  { status := 400, message := some "Validation error", errors := some (issuesJson is) }

/-- Catch block that maps every exception to the 500 envelope. -/
def catchPlain (db : DB) (r : Except (Exc × Nat) HRes) : HRes :=
  match r with
  | .ok h => h
  | .error (e, n) => (resp500 e, db, n)

/-- Catch block that maps a ZodError to the 400 envelope with the issues
array and every other exception to the 500 envelope. -/
def catchZodArr (db : DB) (r : Except (Exc × Nat) HRes) : HRes :=
  match r with
  | .ok h => h
  | .error (.zodErr is, n) => (respZodArr is, db, n)
  | .error (e, n) => (resp500 e, db, n)

/-- Catch block of the theater PUT handler: its ZodError envelope carries
error.message (a string) in the errors field. -/
def catchZodStr (db : DB) (r : Except (Exc × Nat) HRes) : HRes :=
  match r with
  | .ok h => h
  | .error (.zodErr is, n) =>
    ({ status := 400, message := some "Validation error", errors := some (.str (zodMessage is)) }, db, n)
  | .error (e, n) => (resp500 e, db, n)

/-- The InsertOneResult object the movie POST handler returns as data. -/
def insertOneResultJson (iid : Json) : Json :=
  .obj [("acknowledged", .bool true), ("insertedId", iid)]

/-- GET /api/movies: first 10 movies. -/
def moviesGet (db : DB) : HRes :=
  ({ status := 200, data := some (.arr (db.movies.take 10)) }, db, 1)

/-- Try block of POST /api/movies. -/
def moviesPostTry (body : Option Json) (db : DB) (freshId : String) : Except (Exc × Nat) HRes :=
  match body with
  | none => .error (.jsonReadErr jsonReadMsg, 0)
  | some b =>
    match movieParse b with
    | .error is =>
      .ok ({ status := 400, message := some "Invalid movie data", errors := some (issuesJson is) }, db, 0)
    | .ok data =>
      let r := mongoInsertOne db.movies data freshId
      .ok ({ status := 201, message := some "Movie created successfully",
             data := some (insertOneResultJson r.2) },
           { db with movies := r.1 }, 1)

/-- POST /api/movies: safeParse with movieSchema, then insertOne. -/
def moviesPost (body : Option Json) (db : DB) (freshId : String) : HRes :=
  catchPlain db (moviesPostTry body db freshId)

/-- PUT /api/movies: method not allowed. -/
def moviesPut (db : DB) : HRes :=
  (resp405 "PUT method is not supported", db, 0)

/-- DELETE /api/movies: method not allowed. -/
def moviesDelete (db : DB) : HRes :=
  (resp405 "DELETE method is not supported", db, 0)

/-- Try block of GET /api/movies/\x7bidMovie\x7d. -/
def movieGetTry (idMovie : String) (db : DB) : Except (Exc × Nat) HRes :=
  if !isValidObjectId idMovie then
    .ok ({ status := 400, message := some "Invalid movie ID",
           error := some "ID format is incorrect" }, db, 0)
  else
    match createFromHexString idMovie with
    | none => .error (.bsonErr bsonHexMsg, 0)
    | some oid =>
      match mongoFindOne db.movies [(["_id"], .oid oid)] with
      | none =>
        .ok ({ status := 404, message := some "Movie not found",
               error := some "No movie found with the given ID" }, db, 1)
      | some m =>
        .ok ({ status := 200, data := some (.obj [("movie", m)]) }, db, 1)

/-- GET /api/movies/\x7bidMovie\x7d. -/
def movieGet (idMovie : String) (db : DB) : HRes :=
  catchPlain db (movieGetTry idMovie db)

/-- The movie PUT step that converts a string _id in the body to an
ObjectId before validation. -/
def moviePutConvertId (b : Json) : Except (Exc × Nat) Json :=
  match b.getField "_id" with
  | some (.str s) =>
    match createFromHexString s with
    | none => .error (.bsonErr bsonHexMsg, 0)
    | some o => .ok (b.setField "_id" (.oid o))
  | _ => .ok b

/-- Try block of PUT /api/movies/\x7bidMovie\x7d: no ObjectId.isValid check on
the path parameter. -/
def moviePutTry (idMovie : String) (body : Option Json) (db : DB) : Except (Exc × Nat) HRes :=
  match body with
  | none => .error (.jsonReadErr jsonReadMsg, 0)
  | some b =>
    match moviePutConvertId b with
    | .error e => .error e
    | .ok b2 =>
      match movieParse b2 with
      | .error is => .error (.zodErr is, 0)
      | .ok data =>
        let upd := data.objFields.filter (fun kv => kv.1 != "_id")
        match createFromHexString idMovie with
        | none => .error (.bsonErr bsonHexMsg, 0)
        | some oid =>
          let r := mongoUpdateOne db.movies [(["_id"], .oid oid)] upd
          if r.2 = 0 then
            .ok ({ status := 404, message := some "Movie not found" },
                 { db with movies := r.1 }, 1)
          else
            .ok ({ status := 200, message := some "Movie updated" },
                 { db with movies := r.1 }, 1)

/-- PUT /api/movies/\x7bidMovie\x7d. -/
def moviePut (idMovie : String) (body : Option Json) (db : DB) : HRes :=
  catchZodArr db (moviePutTry idMovie body db)

/-- Try block of DELETE /api/movies/\x7bidMovie\x7d: no ObjectId.isValid check
on the path parameter. -/
def movieDeleteTry (idMovie : String) (db : DB) : Except (Exc × Nat) HRes :=
  match createFromHexString idMovie with
  | none => .error (.bsonErr bsonHexMsg, 0)
  | some oid =>
    let r := mongoDeleteOne db.movies [(["_id"], .oid oid)]
    if r.2 = 0 then
      .ok ({ status := 404, message := some "Movie not found" }, { db with movies := r.1 }, 1)
    else
      .ok ({ status := 200, message := some "Movie deleted" }, { db with movies := r.1 }, 1)

/-- DELETE /api/movies/\x7bidMovie\x7d. -/
def movieDelete (idMovie : String) (db : DB) : HRes :=
  catchPlain db (movieDeleteTry idMovie db)

/-- Try block of GET /api/movies/\x7bidMovie\x7d/comments. -/
def commentsGetTry (idMovie : String) (db : DB) : Except (Exc × Nat) HRes :=
  match createFromHexString idMovie with
  | none => .error (.bsonErr bsonHexMsg, 0)
  | some oidM =>
    let cs := mongoFind db.comments [(["movie_id"], .oid oidM)]
    if cs.isEmpty then
      .ok ({ status := 200, message := some "No comments available for this movie.",
             data := some (.arr []) }, db, 1)
    else
      .ok ({ status := 200, data := some (.arr cs) }, db, 1)

/-- GET /api/movies/\x7bidMovie\x7d/comments: the isValid check precedes the
try block. -/
def commentsGet (idMovie : String) (db : DB) : HRes :=
  if !isValidObjectId idMovie then
    ({ status := 400, message := some "Invalid movie ID",
       error := some "ID format is incorrect" }, db, 0)
  else
    catchPlain db (commentsGetTry idMovie db)

/-- The object the comment POST handler validates: the body with
movie_id and date overridden. -/
def commentToValidate (b : Json) (oidM : String) (now : Int) : Json :=
  (b.setField "movie_id" (.oid oidM)).setField "date" (.date now)

/-- Try block of POST /api/movies/\x7bidMovie\x7d/comments. -/
def commentsPostTry (idMovie : String) (body : Option Json) (db : DB) (now : Int)
    (freshId : String) : Except (Exc × Nat) HRes :=
  match createFromHexString idMovie with
  | none => .error (.bsonErr bsonHexMsg, 0)
  | some oidM =>
    match mongoFindOne db.movies [(["_id"], .oid oidM)] with
    | none =>
      .ok ({ status := 404, message := some "Movie not found",
             error := some "No movie found with the given ID" }, db, 1)
    | some _ =>
      match body with
      | none => .error (.jsonReadErr jsonReadMsg, 1)
      | some b =>
        match commentNoIdParse (commentToValidate b oidM now) with
        | .error is => .error (.zodErr is, 1)
        | .ok data =>
          let r := mongoInsertOne db.comments data freshId
          .ok ({ status := 201, data := some (.obj [("insertedId", r.2)]),
                 message := some "Comment created successfully" },
               { db with comments := r.1 }, 2)

/-- POST /api/movies/\x7bidMovie\x7d/comments: the isValid check precedes the
try block. -/
def commentsPost (idMovie : String) (body : Option Json) (db : DB) (now : Int)
    (freshId : String) : HRes :=
  if !isValidObjectId idMovie then
    ({ status := 400, message := some "Invalid movie ID",
       error := some "ID format is incorrect" }, db, 0)
  else
    catchZodArr db (commentsPostTry idMovie body db now freshId)

/-- PUT /api/movies/\x7bidMovie\x7d/comments: method not allowed. -/
def commentsPut (db : DB) : HRes :=
  (resp405 "PUT method is not supported", db, 0)

/-- DELETE /api/movies/\x7bidMovie\x7d/comments: method not allowed. -/
def commentsDelete (db : DB) : HRes :=
  (resp405 "DELETE method is not supported", db, 0)

/-- Try block of GET /api/movies/\x7bidMovie\x7d/comments/\x7bidComment\x7d. -/
def commentGetTry (idMovie idComment : String) (db : DB) : Except (Exc × Nat) HRes :=
  match createFromHexString idComment with
  | none => .error (.bsonErr bsonHexMsg, 0)
  | some oidC =>
    match createFromHexString idMovie with
    | none => .error (.bsonErr bsonHexMsg, 0)
    | some oidM =>
      match mongoFindOne db.comments [(["_id"], .oid oidC), (["movie_id"], .oid oidM)] with
      | none => .ok ({ status := 404, message := some "Comment not found for this movie" }, db, 1)
      | some c => .ok ({ status := 200, data := some c }, db, 1)

/-- GET /api/movies/\x7bidMovie\x7d/comments/\x7bidComment\x7d. -/
def commentGet (idMovie idComment : String) (db : DB) : HRes :=
  if !isValidObjectId idMovie || !isValidObjectId idComment then
    ({ status := 400, message := some "Invalid movie ID or comment ID" }, db, 0)
  else
    catchPlain db (commentGetTry idMovie idComment db)

/-- Try block of PUT /api/movies/\x7bidMovie\x7d/comments/\x7bidComment\x7d: the
existence check filters on _id and movie_id, the update filters on _id
only. -/
def commentPutTry (idMovie idComment : String) (body : Option Json) (db : DB) :
    Except (Exc × Nat) HRes :=
  match createFromHexString idComment with
  | none => .error (.bsonErr bsonHexMsg, 0)
  | some oidC =>
    match createFromHexString idMovie with
    | none => .error (.bsonErr bsonHexMsg, 0)
    | some oidM =>
      match mongoFindOne db.comments [(["_id"], .oid oidC), (["movie_id"], .oid oidM)] with
      | none =>
        .ok ({ status := 404, message := some "Comment not found for this movie" }, db, 1)
      | some _ =>
        match body with
        | none => .error (.jsonReadErr jsonReadMsg, 1)
        | some b =>
          match commentPickParse b with
          | .error is => .error (.zodErr is, 1)
          | .ok data =>
            let r := mongoUpdateOne db.comments [(["_id"], .oid oidC)] data.objFields
            .ok ({ status := 200, message := some "Comment updated successfully" },
                 { db with comments := r.1 }, 2)

/-- PUT /api/movies/\x7bidMovie\x7d/comments/\x7bidComment\x7d. -/
def commentPut (idMovie idComment : String) (body : Option Json) (db : DB) : HRes :=
  if !isValidObjectId idMovie || !isValidObjectId idComment then
    ({ status := 400, message := some "Invalid movie ID or comment ID" }, db, 0)
  else
    catchZodArr db (commentPutTry idMovie idComment body db)

/-- Try block of DELETE /api/movies/\x7bidMovie\x7d/comments/\x7bidComment\x7d. -/
def commentDeleteTry (idMovie idComment : String) (db : DB) : Except (Exc × Nat) HRes :=
  match createFromHexString idComment with
  | none => .error (.bsonErr bsonHexMsg, 0)
  | some oidC =>
    match createFromHexString idMovie with
    | none => .error (.bsonErr bsonHexMsg, 0)
    | some oidM =>
      let r := mongoDeleteOne db.comments [(["_id"], .oid oidC), (["movie_id"], .oid oidM)]
      if r.2 = 0 then
        .ok ({ status := 404, message := some "Comment not found for this movie" },
             { db with comments := r.1 }, 1)
      else
        .ok ({ status := 200, message := some "Comment deleted successfully" },
             { db with comments := r.1 }, 1)

/-- DELETE /api/movies/\x7bidMovie\x7d/comments/\x7bidComment\x7d. -/
def commentDelete (idMovie idComment : String) (db : DB) : HRes :=
  if !isValidObjectId idMovie || !isValidObjectId idComment then
    ({ status := 400, message := some "Invalid movie ID or comment ID" }, db, 0)
  else
    catchPlain db (commentDeleteTry idMovie idComment db)

/-- GET /api/theaters: first 10 theaters. -/
def theatersGet (db : DB) : HRes :=
  ({ status := 200, data := some (.arr (db.theaters.take 10)) }, db, 1)

/-- The new theaterId the theater POST handler computes from the latest
theater: largest existing theaterId plus one, 1 on an empty collection,
none (NaN in JS) when the latest document has no numeric theaterId. -/
def theatersNewId (db : DB) : Option Int :=
  match latestTheater db.theaters with
  | none => some 1
  | some d =>
    match d.getField "theaterId" with
    | some (.num n) => some (n + 1)
    | _ => none

/-- The JS value of the computed theaterId; NaN is modelled as null, which
the schema number check rejects just as zod rejects NaN. -/
def newIdJson : Option Int → Json
  | some n => .num n
  | none => .null

/-- The address-equality duplicate query of the theater POST handler. -/
def theaterAddrQuery (t : Json) : List Cond :=
  [(["location", "address", "street1"], (t.getPath ["location", "address", "street1"]).getD .null),
   (["location", "address", "city"], (t.getPath ["location", "address", "city"]).getD .null),
   (["location", "address", "state"], (t.getPath ["location", "address", "state"]).getD .null),
   (["location", "address", "zipcode"], (t.getPath ["location", "address", "zipcode"]).getD .null)]

/-- Try block of POST /api/theaters: latest-theaterId find, schema
validation, duplicate-address findOne, insertOne. -/
def theatersPostTry (body : Option Json) (db : DB) (freshId : String) : Except (Exc × Nat) HRes :=
  match body with
  | none => .error (.jsonReadErr jsonReadMsg, 0)
  | some b =>
    let nid := theatersNewId db
    let dataToValidate := b.setField "theaterId" (newIdJson nid)
    match theaterParse dataToValidate with
    | .error is => .error (.zodErr is, 1)
    | .ok data =>
      let tNoId := data.removeField "_id"
      match mongoFindOne db.theaters (theaterAddrQuery tNoId) with
      | some _ => .ok ({ status := 400, message := some "Theater already exists" }, db, 2)
      | none =>
        let r := mongoInsertOne db.theaters tNoId freshId
        .ok ({ status := 201,
               data := some (.obj [("insertedId", r.2), ("theaterId", newIdJson nid)]),
               message := some "Theater created" },
             { db with theaters := r.1 }, 3)

/-- POST /api/theaters. -/
def theatersPost (body : Option Json) (db : DB) (freshId : String) : HRes :=
  catchZodArr db (theatersPostTry body db freshId)

/-- PUT /api/theaters: method not allowed. -/
def theatersPut (db : DB) : HRes :=
  (resp405 "PUT method is not supported", db, 0)

/-- DELETE /api/theaters: method not allowed. -/
def theatersDelete (db : DB) : HRes :=
  (resp405 "DELETE method is not supported", db, 0)

/-- Try block of GET /api/theaters/\x7bidTheater\x7d. -/
def theaterGetTry (idTheater : String) (db : DB) : Except (Exc × Nat) HRes :=
  match createFromHexString idTheater with
  | none => .error (.bsonErr bsonHexMsg, 0)
  | some oid =>
    match mongoFindOne db.theaters [(["_id"], .oid oid)] with
    | none =>
      .ok ({ status := 404, message := some "Theater not found",
             error := some "No Theater found with the given ID" }, db, 1)
    | some t => .ok ({ status := 200, data := some (.obj [("Theater", t)]) }, db, 1)

/-- GET /api/theaters/\x7bidTheater\x7d. -/
def theaterGet (idTheater : String) (db : DB) : HRes :=
  if !isValidObjectId idTheater then
    ({ status := 400, message := some "Invalid Theater ID",
       error := some "ID format is incorrect" }, db, 0)
  else
    catchPlain db (theaterGetTry idTheater db)

/-- Try block of PUT /api/theaters/\x7bidTheater\x7d. -/
def theaterPutTry (idTheater : String) (body : Option Json) (db : DB) :
    Except (Exc × Nat) HRes :=
  match body with
  | none => .error (.jsonReadErr jsonReadMsg, 0)
  | some b =>
    match theaterUpdateParse b with
    | .error is => .error (.zodErr is, 0)
    | .ok data =>
      match createFromHexString idTheater with
      | none => .error (.bsonErr bsonHexMsg, 0)
      | some oid =>
        let r := mongoUpdateOne db.theaters [(["_id"], .oid oid)] data.objFields
        if r.2 = 0 then
          .ok ({ status := 404, message := some "Theater not found" },
               { db with theaters := r.1 }, 1)
        else
          .ok ({ status := 200, message := some "Theater updated" },
               { db with theaters := r.1 }, 1)

/-- PUT /api/theaters/\x7bidTheater\x7d. -/
def theaterPut (idTheater : String) (body : Option Json) (db : DB) : HRes :=
  if !isValidObjectId idTheater then
    ({ status := 400, message := some "Invalid Theater ID",
       error := some "ID format is incorrect" }, db, 0)
  else
    catchZodStr db (theaterPutTry idTheater body db)

/-- Try block of DELETE /api/theaters/\x7bidTheater\x7d. -/
def theaterDeleteTry (idTheater : String) (db : DB) : Except (Exc × Nat) HRes :=
  match createFromHexString idTheater with
  | none => .error (.bsonErr bsonHexMsg, 0)
  | some oid =>
    let r := mongoDeleteOne db.theaters [(["_id"], .oid oid)]
    if r.2 = 0 then
      .ok ({ status := 404, message := some "Theater not found" }, { db with theaters := r.1 }, 1)
    else
      .ok ({ status := 200, message := some "Theater deleted" }, { db with theaters := r.1 }, 1)

/-- DELETE /api/theaters/\x7bidTheater\x7d. -/
def theaterDelete (idTheater : String) (db : DB) : HRes :=
  if !isValidObjectId idTheater then
    ({ status := 400, message := some "Invalid Theater ID",
       error := some "ID format is incorrect" }, db, 0)
  else
    catchPlain db (theaterDeleteTry idTheater db)

/-- POST /api/theaters/\x7bidTheater\x7d: method not allowed (the source
reuses the PUT wording in its error field). -/
def theaterPost (db : DB) : HRes :=
  (resp405 "PUT method is not supported", db, 0)

/-- One invocation of any route handler of the API, carrying its request
inputs: path parameters, parsed body (none when request.json() rejects),
the clock value, and the ObjectId the driver would generate on insert. -/
inductive Call where
  | moviesGetC
  | moviesPostC (body : Option Json) (freshId : String)
  | moviesPutC
  | moviesDeleteC
  | movieGetC (idMovie : String)
  | moviePutC (idMovie : String) (body : Option Json)
  | movieDeleteC (idMovie : String)
  | commentsGetC (idMovie : String)
  | commentsPostC (idMovie : String) (body : Option Json) (now : Int) (freshId : String)
  | commentsPutC
  | commentsDeleteC
  | commentGetC (idMovie idComment : String)
  | commentPutC (idMovie idComment : String) (body : Option Json)
  | commentDeleteC (idMovie idComment : String)
  | theatersGetC
  | theatersPostC (body : Option Json) (freshId : String)
  | theatersPutC
  | theatersDeleteC
  | theaterGetC (idTheater : String)
  | theaterPutC (idTheater : String) (body : Option Json)
  | theaterDeleteC (idTheater : String)
  | theaterPostC

/-- Dispatch a call to its handler. -/
def runCall : Call → DB → HRes
  | .moviesGetC, db => moviesGet db
  | .moviesPostC body freshId, db => moviesPost body db freshId
  | .moviesPutC, db => moviesPut db
  | .moviesDeleteC, db => moviesDelete db
  | .movieGetC idMovie, db => movieGet idMovie db
  | .moviePutC idMovie body, db => moviePut idMovie body db
  | .movieDeleteC idMovie, db => movieDelete idMovie db
  | .commentsGetC idMovie, db => commentsGet idMovie db
  | .commentsPostC idMovie body now freshId, db => commentsPost idMovie body db now freshId
  | .commentsPutC, db => commentsPut db
  | .commentsDeleteC, db => commentsDelete db
  | .commentGetC idMovie idComment, db => commentGet idMovie idComment db
  | .commentPutC idMovie idComment body, db => commentPut idMovie idComment body db
  | .commentDeleteC idMovie idComment, db => commentDelete idMovie idComment db
  | .theatersGetC, db => theatersGet db
  | .theatersPostC body freshId, db => theatersPost body db freshId
  | .theatersPutC, db => theatersPut db
  | .theatersDeleteC, db => theatersDelete db
  | .theaterGetC idTheater, db => theaterGet idTheater db
  | .theaterPutC idTheater body, db => theaterPut idTheater body db
  | .theaterDeleteC idTheater, db => theaterDelete idTheater db
  | .theaterPostC, db => theaterPost db

/-- The try-block semantics of a call: the handler up to but not
including its catch block.  Paths that never raise (method-not-allowed
responses and the pre-try isValid guards) are ok results. -/
def tryCall : Call → DB → Except (Exc × Nat) HRes
  | .moviesGetC, db => .ok (moviesGet db)
  | .moviesPostC body freshId, db => moviesPostTry body db freshId
  | .moviesPutC, db => .ok (moviesPut db)
  | .moviesDeleteC, db => .ok (moviesDelete db)
  | .movieGetC idMovie, db => movieGetTry idMovie db
  | .moviePutC idMovie body, db => moviePutTry idMovie body db
  | .movieDeleteC idMovie, db => movieDeleteTry idMovie db
  | .commentsGetC idMovie, db =>
    if !isValidObjectId idMovie then
      .ok ({ status := 400, message := some "Invalid movie ID",
             error := some "ID format is incorrect" }, db, 0)
    else commentsGetTry idMovie db
  | .commentsPostC idMovie body now freshId, db =>
    if !isValidObjectId idMovie then
      .ok ({ status := 400, message := some "Invalid movie ID",
             error := some "ID format is incorrect" }, db, 0)
    else commentsPostTry idMovie body db now freshId
  | .commentsPutC, db => .ok (commentsPut db)
  | .commentsDeleteC, db => .ok (commentsDelete db)
  | .commentGetC idMovie idComment, db =>
    if !isValidObjectId idMovie || !isValidObjectId idComment then
      .ok ({ status := 400, message := some "Invalid movie ID or comment ID" }, db, 0)
    else commentGetTry idMovie idComment db
  | .commentPutC idMovie idComment body, db =>
    if !isValidObjectId idMovie || !isValidObjectId idComment then
      .ok ({ status := 400, message := some "Invalid movie ID or comment ID" }, db, 0)
    else commentPutTry idMovie idComment body db
  | .commentDeleteC idMovie idComment, db =>
    if !isValidObjectId idMovie || !isValidObjectId idComment then
      .ok ({ status := 400, message := some "Invalid movie ID or comment ID" }, db, 0)
    else commentDeleteTry idMovie idComment db
  | .theatersGetC, db => .ok (theatersGet db)
  | .theatersPostC body freshId, db => theatersPostTry body db freshId
  | .theatersPutC, db => .ok (theatersPut db)
  | .theatersDeleteC, db => .ok (theatersDelete db)
  | .theaterGetC idTheater, db =>
    if !isValidObjectId idTheater then
      .ok ({ status := 400, message := some "Invalid Theater ID",
             error := some "ID format is incorrect" }, db, 0)
    else theaterGetTry idTheater db
  | .theaterPutC idTheater body, db =>
    if !isValidObjectId idTheater then
      .ok ({ status := 400, message := some "Invalid Theater ID",
             error := some "ID format is incorrect" }, db, 0)
    else theaterPutTry idTheater body db
  | .theaterDeleteC idTheater, db =>
    if !isValidObjectId idTheater then
      .ok ({ status := 400, message := some "Invalid Theater ID",
             error := some "ID format is incorrect" }, db, 0)
    else theaterDeleteTry idTheater db
  | .theaterPostC, db => .ok (theaterPost db)

/-- The calls whose handlers issue more than one database operation:
theater POST (latest-id find, duplicate findOne, insertOne) and comment
POST and comment PUT (existence findOne plus the write). -/
def Call.isMulti : Call → Bool
  | .theatersPostC _ _ => true
  | .commentsPostC _ _ _ _ => true
  | .commentPutC _ _ _ => true
  | _ => false

/-- Per-handler bound on the number of database operations a run may
perform: three for theater POST (latest-theaterId find, duplicate
findOne, insertOne), two for comment POST and comment PUT (existence
findOne plus the write), none for the method-not-allowed handlers, one
for every other handler. -/
def Call.opsBound : Call → Nat
  | .moviesPutC => 0
  | .moviesDeleteC => 0
  | .commentsPutC => 0
  | .commentsDeleteC => 0
  | .theatersPutC => 0
  | .theatersDeleteC => 0
  | .theaterPostC => 0
  | .theatersPostC _ _ => 3
  | .commentsPostC _ _ _ _ => 2
  | .commentPutC _ _ _ => 2
  | _ => 1

/-- Whether a call is stopped by its handler's ObjectId-format guard
before any database operation. -/
def Call.earlyRejected : Call → Bool
  | .movieGetC idM => !isValidObjectId idM
  | .commentsGetC idM => !isValidObjectId idM
  | .commentsPostC idM _ _ _ => !isValidObjectId idM
  | .commentGetC idM idC => !isValidObjectId idM || !isValidObjectId idC
  | .commentPutC idM idC _ => !isValidObjectId idM || !isValidObjectId idC
  | .commentDeleteC idM idC => !isValidObjectId idM || !isValidObjectId idC
  | .theaterGetC idT => !isValidObjectId idT
  | .theaterPutC idT _ => !isValidObjectId idT
  | .theaterDeleteC idT => !isValidObjectId idT
  | _ => false

/-- The status codes the handlers emit. -/
def statusOk (s : Int) : Prop :=
  s = 200 ∨ s = 201 ∨ s = 400 ∨ s = 404 ∨ s = 405 ∨ s = 500

/-- Invariant of a try-block result: at most k database operations were
performed, the status of a normal result is one of the emitted codes,
and a handler without a ZodError catch branch never raises a ZodError. -/
def tryOk (t : Except (Exc × Nat) HRes) (k : Nat) (zodable : Bool) : Prop :=
  match t with
  | .ok h => h.2.2 ≤ k ∧ statusOk h.1.status
  | .error (e, n) => n ≤ k ∧ (zodable = false → e.isZod = false)

/-- What the uniform try/catch discipline guarantees for one run: the
envelope status is an emitted code, a non-ZodError exception yields
exactly the 500 Internal Server Error envelope with the database
untouched, and a ZodError yields a 400 envelope. -/
def c3Post (db : DB) (t : Except (Exc × Nat) HRes) (run : HRes) : Prop :=
  statusOk run.1.status ∧
  (∀ e n, t = .error (e, n) → e.isZod = false → run = (resp500 e, db, n)) ∧
  (∀ is n, t = .error (.zodErr is, n) → run.1.status = 400)

/-- A valid lowercase 24-hex ObjectId string for concrete runs. -/
def oidA : String := "0123456789abcdef01234567"

/-- Another valid lowercase 24-hex ObjectId string. -/
def oidB : String := "abcdefabcdefabcdefabcdef"

/-- A third valid lowercase 24-hex ObjectId string. -/
def oidC : String := "aaaaaaaaaaaaaaaaaaaaaaaa"

/-- A concrete movie document. -/
def movieDocW : Json := .obj [("_id", .oid oidA), ("title", .str "T")]

/-- A concrete comment document attached to movieDocW. -/
def commentDocW : Json :=
  .obj [("_id", .oid oidB), ("movie_id", .oid oidA), ("name", .str "N"),
        ("email", .str "n@example.com"), ("text", .str "t"), ("date", .date 0)]

/-- The empty database. -/
def dbEmpty : DB := ⟨[], [], []⟩

/-- A concrete database with one movie and one comment on it. -/
def dbW : DB := ⟨[movieDocW], [], [commentDocW]⟩

/-- A concrete comment request body that satisfies the comment schema
once the handler adds movie_id and date. -/
def commentBodyW : Json :=
  .obj [("name", .str "Ann"), ("email", .str "ann@example.com"), ("text", .str "nice")]

/-- A concrete location object in theater-schema shape. -/
def theaterLocW : Json :=
  .obj [("address", .obj [("street1", .str "s"), ("city", .str "c"),
                          ("state", .str "st"), ("zipcode", .str "z")]),
        ("geo", .obj [("type", .str "Point"), ("coordinates", .arr [.num 0, .num 1])])]

/-- A concrete request body that satisfies the theater schema once the
handler adds a theaterId. -/
def theaterBodyW : Json := .obj [("location", theaterLocW)]

/-- A concrete theater document at a different address from
theaterBodyW. -/
def theaterDocW : Json :=
  .obj [("_id", .oid oidB), ("theaterId", .num 7),
        ("location", .obj
          [("address", .obj [("street1", .str "x"), ("city", .str "y"),
                             ("state", .str "zz"), ("zipcode", .str "w")]),
           ("geo", .obj [("type", .str "Point"), ("coordinates", .arr [.num 2, .num 3])])])]

/-- A concrete database with one theater at a different address. -/
def dbT : DB := ⟨[], [theaterDocW], []⟩

/-- A concrete theater document at the same address as theaterBodyW. -/
def theaterDupW : Json :=
  .obj [("_id", .oid oidB), ("theaterId", .num 7), ("location", theaterLocW)]

/-- A concrete database with one theater at the same address as
theaterBodyW. -/
def dbT2 : DB := ⟨[], [theaterDupW], []⟩

theorem lookupField_setFieldList_self (fs : List (String × Json)) (k : String) (v : Json) :
    lookupField (setFieldList fs k v) k = some v := by
  induction fs with
  | nil => simp [setFieldList, lookupField]
  | cons kv rest ih =>
    obtain ⟨k2, w⟩ := kv
    by_cases h : k2 = k
    · simp [setFieldList, lookupField, h]
    · simp [setFieldList, lookupField, h, ih]

theorem lookupField_setFieldList_ne (fs : List (String × Json)) (k : String) (v : Json)
    (key : String) (h : k ≠ key) :
    lookupField (setFieldList fs k v) key = lookupField fs key := by
  induction fs with
  | nil => simp [setFieldList, lookupField, h]
  | cons kv rest ih =>
    obtain ⟨k2, w⟩ := kv
    by_cases h2 : k2 = k
    · subst h2
      simp [setFieldList, lookupField, h]
    · simp [setFieldList, lookupField, h2, ih]

theorem getField_setField_self (fs : List (String × Json)) (k : String) (v : Json) :
    ((Json.obj fs).setField k v).getField k = some v := by
  simp [Json.setField, Json.getField, lookupField_setFieldList_self]

theorem getField_setField_ne (j : Json) (k : String) (v : Json) (key : String) (h : k ≠ key) :
    (j.setField k v).getField key = j.getField key := by
  cases j <;> simp [Json.setField, Json.getField]
  exact lookupField_setFieldList_ne _ _ _ _ h

theorem lookupField_filter_ne (fs : List (String × Json)) (k key : String) (h : k ≠ key) :
    lookupField (fs.filter (fun kv => kv.1 != k)) key = lookupField fs key := by
  induction fs with
  | nil => rfl
  | cons kv rest ih =>
    obtain ⟨k2, w⟩ := kv
    rw [List.filter_cons]
    by_cases h2 : k2 = k
    · subst h2
      have hne : k2 ≠ key := h
      simp [lookupField, hne, ih]
    · have hb : ((k2, w).1 != k) = true := by simpa [bne_iff_ne] using h2
      rw [if_pos hb]
      by_cases h3 : k2 = key
      · simp [lookupField, h3]
      · simp [lookupField, h3, ih]

theorem getField_removeField_ne (j : Json) (k key : String) (h : k ≠ key) :
    (j.removeField k).getField key = j.getField key := by
  cases j with
  | obj fs =>
    simp only [Json.removeField, Json.getField]
    exact lookupField_filter_ne fs k key h
  | null => rfl
  | bool b => rfl
  | num n => rfl
  | str s => rfl
  | oid i => rfl
  | date ms => rfl
  | arr xs => rfl

theorem lookupField_eq_none_of_keys_ne (fs : List (String × Json)) (key : String)
    (h : ∀ kv ∈ fs, kv.1 ≠ key) : lookupField fs key = none := by
  induction fs with
  | nil => rfl
  | cons kv rest ih =>
    obtain ⟨k, v⟩ := kv
    have hk : k ≠ key := h (k, v) (List.mem_cons_self _ _)
    simp only [lookupField, if_neg hk]
    exact ih (fun kv2 h2 => h kv2 (List.mem_cons_of_mem _ h2))

theorem getField_applySet_of_keys_ne (doc : Json) (upd : List (String × Json)) (key : String)
    (h : ∀ kv ∈ upd, kv.1 ≠ key) : (applySet doc upd).getField key = doc.getField key := by
  induction upd generalizing doc with
  | nil => rfl
  | cons kv rest ih =>
    obtain ⟨k, v⟩ := kv
    have hk : k ≠ key := h (k, v) (List.mem_cons_self _ _)
    simp only [applySet, List.foldl_cons]
    rw [show (List.foldl (fun d kv => d.setField kv.1 kv.2) (doc.setField k v) rest) =
        applySet (doc.setField k v) rest from rfl]
    rw [ih (doc.setField k v) (fun kv2 h2 => h kv2 (List.mem_cons_of_mem _ h2))]
    exact getField_setField_ne _ _ _ _ hk

theorem mongoUpdateOne_map_getField (docs : List Json) (q : List Cond)
    (upd : List (String × Json)) (key : String) (h : ∀ kv ∈ upd, kv.1 ≠ key) :
    ((mongoUpdateOne docs q upd).1).map (fun d => d.getField key) =
      docs.map (fun d => d.getField key) := by
  induction docs with
  | nil => rfl
  | cons d rest ih =>
    by_cases hm : matchesQuery d q
    · simp [mongoUpdateOne, hm, getField_applySet_of_keys_ne d upd key h]
    · simp [mongoUpdateOne, hm, ih]

theorem runSpecs_keys_mem (fs : List (String × Json)) (specs : List FieldSpec) :
    ∀ kv ∈ (runSpecs fs specs).2, kv.1 ∈ specs.map FieldSpec.name := by
  induction specs with
  | nil => simp [runSpecs]
  | cons sp rest ih =>
    intro kv hkv
    simp only [runSpecs] at hkv
    split at hkv
    · split at hkv
      · exact List.mem_cons_of_mem _ (ih kv hkv)
      · exact List.mem_cons_of_mem _ (ih kv hkv)
    · split at hkv
      · exact List.mem_cons_of_mem _ (ih kv hkv)
      · rcases List.mem_cons.mp hkv with heq | hmem
        · rw [heq]
          exact List.mem_cons_self _ _
        · exact List.mem_cons_of_mem _ (ih kv hmem)

theorem parseObj_ok_keys (specs : List FieldSpec) (j o : Json)
    (h : parseObj specs j = .ok o) :
    ∀ kv ∈ o.objFields, kv.1 ∈ specs.map FieldSpec.name := by
  cases j <;> simp only [parseObj] at h <;> try exact absurd h (by simp)
  rename_i fs
  by_cases he : (runSpecs fs specs).1 = []
  · rw [if_pos he] at h
    cases h
    simpa [Json.objFields] using runSpecs_keys_mem fs specs
  · rw [if_neg he] at h
    exact absurd h (by simp)

theorem runSpecs_lookup_present (fs : List (String × Json)) (specs : List FieldSpec)
    (k : String) (sp : FieldSpec) (v : Json)
    (hfind : specs.find? (fun s => s.name == k) = some sp)
    (hv : lookupField fs k = some v)
    (herr : (runSpecs fs specs).1 = []) :
    ∃ v2, sp.check v = some v2 ∧ lookupField (runSpecs fs specs).2 k = some v2 := by
  induction specs with
  | nil => simp [List.find?] at hfind
  | cons s rest ih =>
    by_cases hname : s.name = k
    · have hsp : sp = s := by
        simp [List.find?, hname] at hfind
        exact hfind.symm
      subst hsp
      simp only [runSpecs, hname, hv] at herr ⊢
      rcases hch : sp.check v with _ | v2 <;> simp only [hch] at herr ⊢
      · simp at herr
      · exact ⟨v2, rfl, by simp [lookupField]⟩
    · have hfalse : (s.name == k) = false := by simp [hname]
      simp only [List.find?, hfalse] at hfind
      simp only [runSpecs] at herr ⊢
      rcases hlk : lookupField fs s.name with _ | w <;> simp only [hlk] at herr ⊢
      · rcases hre : s.required with _ | _ <;> simp only [hre] at herr ⊢
        · simp only [Bool.false_eq_true, if_neg] at herr ⊢
          exact ih hfind herr
        · simp at herr
      · rcases hch : s.check w with _ | w2 <;> simp only [hch] at herr ⊢
        · simp at herr
        · simp only [lookupField, if_neg hname]
          exact ih hfind herr

theorem moviePut_db_shape (idMovie : String) (body : Option Json) (db : DB) :
    (moviePut idMovie body db).2.1 = db ∨
    ∃ q upd, (∀ kv ∈ upd, kv.1 ≠ "_id") ∧
      (moviePut idMovie body db).2.1 = { db with movies := (mongoUpdateOne db.movies q upd).1 } := by
  rw [moviePut]
  rcases htry : moviePutTry idMovie body db with ⟨e, n⟩ | h
  · left
    rcases e with is | m | m <;> rfl
  · simp only [catchZodArr]
    simp only [moviePutTry] at htry
    cases body with
    | none => simp at htry
    | some b =>
      simp only at htry
      rcases hconv : moviePutConvertId b with e2 | b2 <;> simp only [hconv] at htry
      · simp at htry
      · rcases hparse : movieParse b2 with is | data <;> simp only [hparse] at htry
        · simp at htry
        · rcases hhex : createFromHexString idMovie with _ | oid <;> simp only [hhex] at htry
          · simp at htry
          · split at htry <;>
            · cases htry
              right
              refine ⟨[(["_id"], .oid oid)], data.objFields.filter (fun kv => kv.1 != "_id"),
                ?_, rfl⟩
              intro kv hkv
              have := (List.mem_filter.mp hkv).2
              simpa [bne_iff_ne] using this

theorem theaterPut_db_shape (idTheater : String) (body : Option Json) (db : DB) :
    (theaterPut idTheater body db).2.1 = db ∨
    ∃ q upd, (∀ kv ∈ upd, kv.1 ∈ (["location"] : List String)) ∧
      (theaterPut idTheater body db).2.1 =
        { db with theaters := (mongoUpdateOne db.theaters q upd).1 } := by
  rw [theaterPut]
  split
  · left
    rfl
  · rcases htry : theaterPutTry idTheater body db with ⟨e, n⟩ | h
    · left
      rcases e with is | m | m <;> rfl
    · simp only [catchZodStr]
      simp only [theaterPutTry] at htry
      cases body with
      | none => simp at htry
      | some b =>
        simp only at htry
        rcases hparse : theaterUpdateParse b with is | data <;> simp only [hparse] at htry
        · simp at htry
        · rcases hhex : createFromHexString idTheater with _ | oid <;> simp only [hhex] at htry
          · simp at htry
          · split at htry <;>
            · cases htry
              right
              refine ⟨[(["_id"], .oid oid)], data.objFields, ?_, rfl⟩
              intro kv hkv
              simpa [theaterUpdateSpecs] using
                parseObj_ok_keys theaterUpdateSpecs b data hparse kv hkv

theorem commentPut_db_shape (idMovie idComment : String) (body : Option Json) (db : DB) :
    (commentPut idMovie idComment body db).2.1 = db ∨
    ∃ q upd, (∀ kv ∈ upd, kv.1 ∈ (["name", "email", "text"] : List String)) ∧
      (commentPut idMovie idComment body db).2.1 =
        { db with comments := (mongoUpdateOne db.comments q upd).1 } := by
  rw [commentPut]
  split
  · left
    rfl
  · rcases htry : commentPutTry idMovie idComment body db with ⟨e, n⟩ | h
    · left
      rcases e with is | m | m <;> rfl
    · simp only [catchZodArr]
      simp only [commentPutTry] at htry
      rcases hhc : createFromHexString idComment with _ | oidc <;> simp only [hhc] at htry
      · simp at htry
      · rcases hhm : createFromHexString idMovie with _ | oidm <;> simp only [hhm] at htry
        · simp at htry
        · rcases hfo : mongoFindOne db.comments
            [(["_id"], .oid oidc), (["movie_id"], .oid oidm)] with _ | c <;>
            simp only [hfo] at htry
          · cases htry
            left
            rfl
          · cases body with
            | none => simp at htry
            | some b =>
              simp only at htry
              rcases hparse : commentPickParse b with is | data <;> simp only [hparse] at htry
              · simp at htry
              · cases htry
                right
                refine ⟨[(["_id"], .oid oidc)], data.objFields, ?_, rfl⟩
                intro kv hkv
                simpa [commentPickSpecs] using
                  parseObj_ok_keys commentPickSpecs b data hparse kv hkv

/-- C10: updates never change identity fields.  PUT on a movie leaves
every _id unchanged, PUT on a theater leaves every _id and theaterId
unchanged, and PUT on a comment leaves every _id, movie_id and date
unchanged, for arbitrary path parameters, bodies and database states. -/
theorem claim10_puts_preserve_identity_fields (idMovie idTheater idM2 idComment : String)
    (bodyM bodyT bodyC : Option Json) (db : DB) :
    ((moviePut idMovie bodyM db).2.1).movies.map (fun d => d.getField "_id") =
        db.movies.map (fun d => d.getField "_id") ∧
    ((theaterPut idTheater bodyT db).2.1).theaters.map (fun d => d.getField "_id") =
        db.theaters.map (fun d => d.getField "_id") ∧
    ((theaterPut idTheater bodyT db).2.1).theaters.map (fun d => d.getField "theaterId") =
        db.theaters.map (fun d => d.getField "theaterId") ∧
    ((commentPut idM2 idComment bodyC db).2.1).comments.map (fun d => d.getField "_id") =
        db.comments.map (fun d => d.getField "_id") ∧
    ((commentPut idM2 idComment bodyC db).2.1).comments.map (fun d => d.getField "movie_id") =
        db.comments.map (fun d => d.getField "movie_id") ∧
    ((commentPut idM2 idComment bodyC db).2.1).comments.map (fun d => d.getField "date") =
        db.comments.map (fun d => d.getField "date") := by
  refine ⟨?_, ?_, ?_, ?_, ?_, ?_⟩
  · rcases moviePut_db_shape idMovie bodyM db with h | ⟨q, upd, hk, h⟩
    · rw [h]
    · rw [h]
      exact mongoUpdateOne_map_getField db.movies q upd "_id" hk
  · rcases theaterPut_db_shape idTheater bodyT db with h | ⟨q, upd, hk, h⟩
    · rw [h]
    · rw [h]
      refine mongoUpdateOne_map_getField db.theaters q upd "_id" ?_
      intro kv hkv
      have := hk kv hkv
      simp at this
      rw [this]
      decide
  · rcases theaterPut_db_shape idTheater bodyT db with h | ⟨q, upd, hk, h⟩
    · rw [h]
    · rw [h]
      refine mongoUpdateOne_map_getField db.theaters q upd "theaterId" ?_
      intro kv hkv
      have := hk kv hkv
      simp at this
      rw [this]
      decide
  · rcases commentPut_db_shape idM2 idComment bodyC db with h | ⟨q, upd, hk, h⟩
    · rw [h]
    · rw [h]
      refine mongoUpdateOne_map_getField db.comments q upd "_id" ?_
      intro kv hkv
      have := hk kv hkv
      simp at this
      rcases this with h1 | h1 | h1 <;> rw [h1] <;> decide
  · rcases commentPut_db_shape idM2 idComment bodyC db with h | ⟨q, upd, hk, h⟩
    · rw [h]
    · rw [h]
      refine mongoUpdateOne_map_getField db.comments q upd "movie_id" ?_
      intro kv hkv
      have := hk kv hkv
      simp at this
      rcases this with h1 | h1 | h1 <;> rw [h1] <;> decide
  · rcases commentPut_db_shape idM2 idComment bodyC db with h | ⟨q, upd, hk, h⟩
    · rw [h]
    · rw [h]
      refine mongoUpdateOne_map_getField db.comments q upd "date" ?_
      intro kv hkv
      have := hk kv hkv
      simp at this
      rcases this with h1 | h1 | h1 <;> rw [h1] <;> decide

/-- C9: the movie and theater list handlers return at most 10 documents:
both envelopes are status 200 and their data arrays have length at most
10 whatever the collections hold. -/
theorem claim9_list_handlers_cap_ten (db : DB) :
    ((moviesGet db).1.status = 200 ∧
      ∃ l, (moviesGet db).1.data = some (.arr l) ∧ l.length ≤ 10) ∧
    ((theatersGet db).1.status = 200 ∧
      ∃ l, (theatersGet db).1.data = some (.arr l) ∧ l.length ≤ 10) := by
  refine ⟨⟨rfl, db.movies.take 10, rfl, ?_⟩, ⟨rfl, db.theaters.take 10, rfl, ?_⟩⟩ <;>
    exact List.length_take_le _ _

/-- C7: handlers keep no in-process state: a handler run is a pure
function of the call (request body, path parameters, clock value and
driver-generated id) and the database state, so two runs that agree on
those inputs return the same envelope and the same final database. -/
theorem claim7_handlers_deterministic (c1 c2 : Call) (db1 db2 : DB)
    (hc : c1 = c2) (hdb : db1 = db2) : runCall c1 db1 = runCall c2 db2 := by
  subst hc
  subst hdb
  rfl

/-- Witness for C7 at a concrete call and database. -/
theorem claim7_witness :
    runCall (.movieGetC oidA) dbW = runCall (.movieGetC oidA) dbW :=
  claim7_handlers_deterministic (.movieGetC oidA) (.movieGetC oidA) dbW dbW rfl rfl

theorem tryOk_status {t : Except (Exc × Nat) HRes} {k : Nat} {z : Bool} (h : tryOk t k z) :
    ∀ h2, t = .ok h2 → statusOk h2.1.status := by
  intro h2 ht
  rw [ht] at h
  exact h.2

theorem tryOk_no_zod {t : Except (Exc × Nat) HRes} {k : Nat} (h : tryOk t k false) :
    ∀ is n, t ≠ .error (.zodErr is, n) := by
  intro is n ht
  rw [ht] at h
  simpa [tryOk, Exc.isZod] using h.2

theorem ops_le_catchPlain (db : DB) (t : Except (Exc × Nat) HRes) (k : Nat) (z : Bool)
    (h : tryOk t k z) : (catchPlain db t).2.2 ≤ k := by
  rcases t with ⟨e, n⟩ | h2
  · simpa [catchPlain] using h.1
  · simpa [catchPlain] using h.1

theorem ops_le_catchZodArr (db : DB) (t : Except (Exc × Nat) HRes) (k : Nat) (z : Bool)
    (h : tryOk t k z) : (catchZodArr db t).2.2 ≤ k := by
  rcases t with ⟨e, n⟩ | h2
  · rcases e with is | m | m <;> simpa [catchZodArr] using h.1
  · simpa [catchZodArr] using h.1

theorem ops_le_catchZodStr (db : DB) (t : Except (Exc × Nat) HRes) (k : Nat) (z : Bool)
    (h : tryOk t k z) : (catchZodStr db t).2.2 ≤ k := by
  rcases t with ⟨e, n⟩ | h2
  · rcases e with is | m | m <;> simpa [catchZodStr] using h.1
  · simpa [catchZodStr] using h.1

theorem c3Post_ok (db : DB) (h : HRes) (hs : statusOk h.1.status) : c3Post db (.ok h) h := by
  refine ⟨hs, ?_, ?_⟩ <;> intro _ _ ht <;> simp at ht

theorem c3Post_catchPlain (db : DB) (t : Except (Exc × Nat) HRes)
    (hs : ∀ h, t = .ok h → statusOk h.1.status)
    (hz : ∀ is n, t ≠ .error (.zodErr is, n)) : c3Post db t (catchPlain db t) := by
  rcases t with ⟨e, n⟩ | h2
  · refine ⟨by simp [catchPlain, resp500, statusOk], ?_, ?_⟩
    · intro e2 n2 ht _
      cases ht
      rfl
    · intro is n2 ht
      exact absurd ht (hz is n2)
  · exact c3Post_ok db h2 (hs h2 rfl)

theorem c3Post_catchZodArr (db : DB) (t : Except (Exc × Nat) HRes)
    (hs : ∀ h, t = .ok h → statusOk h.1.status) : c3Post db t (catchZodArr db t) := by
  rcases t with ⟨e, n⟩ | h2
  · rcases e with is | m | m
    · refine ⟨by simp [catchZodArr, respZodArr, statusOk], ?_, ?_⟩
      · intro e2 n2 ht hnz
        cases ht
        simp [Exc.isZod] at hnz
      · intro is2 n2 ht
        cases ht
        rfl
    · refine ⟨by simp [catchZodArr, resp500, statusOk], ?_, ?_⟩
      · intro e2 n2 ht _
        cases ht
        rfl
      · intro is2 n2 ht
        simp at ht
    · refine ⟨by simp [catchZodArr, resp500, statusOk], ?_, ?_⟩
      · intro e2 n2 ht _
        cases ht
        rfl
      · intro is2 n2 ht
        simp at ht
  · exact c3Post_ok db h2 (hs h2 rfl)

theorem c3Post_catchZodStr (db : DB) (t : Except (Exc × Nat) HRes)
    (hs : ∀ h, t = .ok h → statusOk h.1.status) : c3Post db t (catchZodStr db t) := by
  rcases t with ⟨e, n⟩ | h2
  · rcases e with is | m | m
    · refine ⟨by simp [catchZodStr, statusOk], ?_, ?_⟩
      · intro e2 n2 ht hnz
        cases ht
        simp [Exc.isZod] at hnz
      · intro is2 n2 ht
        cases ht
        rfl
    · refine ⟨by simp [catchZodStr, resp500, statusOk], ?_, ?_⟩
      · intro e2 n2 ht _
        cases ht
        rfl
      · intro is2 n2 ht
        simp at ht
    · refine ⟨by simp [catchZodStr, resp500, statusOk], ?_, ?_⟩
      · intro e2 n2 ht _
        cases ht
        rfl
      · intro is2 n2 ht
        simp at ht
  · exact c3Post_ok db h2 (hs h2 rfl)

theorem tryOk_moviesPostTry (body : Option Json) (db : DB) (freshId : String) :
    tryOk (moviesPostTry body db freshId) 1 false := by
  simp only [moviesPostTry]
  repeat' split
  all_goals simp [tryOk, statusOk, Exc.isZod]

theorem tryOk_movieGetTry (idMovie : String) (db : DB) :
    tryOk (movieGetTry idMovie db) 1 false := by
  simp only [movieGetTry]
  repeat' split
  all_goals simp [tryOk, statusOk, Exc.isZod]

theorem moviePutConvertId_error (b : Json) (e : Exc × Nat)
    (h : moviePutConvertId b = .error e) : e = (.bsonErr bsonHexMsg, 0) := by
  simp only [moviePutConvertId] at h
  repeat' split at h
  all_goals simp_all

theorem tryOk_moviePutTry (idMovie : String) (body : Option Json) (db : DB) :
    tryOk (moviePutTry idMovie body db) 1 true := by
  cases body with
  | none => simp [moviePutTry, tryOk]
  | some b =>
    rcases hconv : moviePutConvertId b with e | b2
    · have he := moviePutConvertId_error b e hconv
      subst he
      simp [moviePutTry, hconv, tryOk]
    · simp only [moviePutTry, hconv]
      repeat' split
      all_goals simp [tryOk, statusOk, Exc.isZod]

theorem tryOk_movieDeleteTry (idMovie : String) (db : DB) :
    tryOk (movieDeleteTry idMovie db) 1 false := by
  simp only [movieDeleteTry]
  repeat' split
  all_goals simp [tryOk, statusOk, Exc.isZod]

theorem tryOk_commentsGetTry (idMovie : String) (db : DB) :
    tryOk (commentsGetTry idMovie db) 1 false := by
  simp only [commentsGetTry]
  repeat' split
  all_goals simp [tryOk, statusOk, Exc.isZod]

theorem tryOk_commentsPostTry (idMovie : String) (body : Option Json) (db : DB) (now : Int)
    (freshId : String) : tryOk (commentsPostTry idMovie body db now freshId) 2 true := by
  simp only [commentsPostTry]
  repeat' split
  all_goals simp [tryOk, statusOk, Exc.isZod]

theorem tryOk_commentGetTry (idMovie idComment : String) (db : DB) :
    tryOk (commentGetTry idMovie idComment db) 1 false := by
  simp only [commentGetTry]
  repeat' split
  all_goals simp [tryOk, statusOk, Exc.isZod]

theorem tryOk_commentPutTry (idMovie idComment : String) (body : Option Json) (db : DB) :
    tryOk (commentPutTry idMovie idComment body db) 2 true := by
  simp only [commentPutTry]
  repeat' split
  all_goals simp [tryOk, statusOk, Exc.isZod]

theorem tryOk_commentDeleteTry (idMovie idComment : String) (db : DB) :
    tryOk (commentDeleteTry idMovie idComment db) 1 false := by
  simp only [commentDeleteTry]
  repeat' split
  all_goals simp [tryOk, statusOk, Exc.isZod]

theorem tryOk_theatersPostTry (body : Option Json) (db : DB) (freshId : String) :
    tryOk (theatersPostTry body db freshId) 3 true := by
  simp only [theatersPostTry]
  repeat' split
  all_goals simp [tryOk, statusOk, Exc.isZod]

theorem tryOk_theaterGetTry (idTheater : String) (db : DB) :
    tryOk (theaterGetTry idTheater db) 1 false := by
  simp only [theaterGetTry]
  repeat' split
  all_goals simp [tryOk, statusOk, Exc.isZod]

theorem tryOk_theaterPutTry (idTheater : String) (body : Option Json) (db : DB) :
    tryOk (theaterPutTry idTheater body db) 1 true := by
  simp only [theaterPutTry]
  repeat' split
  all_goals simp [tryOk, statusOk, Exc.isZod]

theorem tryOk_theaterDeleteTry (idTheater : String) (db : DB) :
    tryOk (theaterDeleteTry idTheater db) 1 false := by
  simp only [theaterDeleteTry]
  repeat' split
  all_goals simp [tryOk, statusOk, Exc.isZod]

/-- C1 (amended): every handler run performs at most its handler's
operation bound — three for theater POST, two for comment POST and
comment PUT, zero for the method-not-allowed handlers, one for every
other handler — that bound never exceeds three, and a request stopped
by an ObjectId-format guard performs no database operation at all. -/
theorem claim1_amended_ops_bound (c : Call) (db : DB) :
    (runCall c db).2.2 ≤ c.opsBound ∧ c.opsBound ≤ 3 ∧
    (c.earlyRejected = true → (runCall c db).2.2 = 0) := by
  cases c with
  | moviesGetC =>
    exact ⟨by simp [runCall, moviesGet, Call.opsBound],
      by norm_num [Call.opsBound], fun h => by simp [Call.earlyRejected] at h⟩
  | moviesPostC body freshId =>
    have h := ops_le_catchPlain db _ 1 false (tryOk_moviesPostTry body db freshId)
    exact ⟨by simpa [runCall, moviesPost, Call.opsBound] using h,
      by norm_num [Call.opsBound], fun h2 => by simp [Call.earlyRejected] at h2⟩
  | moviesPutC =>
    exact ⟨by simp [runCall, moviesPut, Call.opsBound],
      by norm_num [Call.opsBound], fun h => by simp [Call.earlyRejected] at h⟩
  | moviesDeleteC =>
    exact ⟨by simp [runCall, moviesDelete, Call.opsBound],
      by norm_num [Call.opsBound], fun h => by simp [Call.earlyRejected] at h⟩
  | movieGetC idMovie =>
    have h := ops_le_catchPlain db _ 1 false (tryOk_movieGetTry idMovie db)
    refine ⟨by simpa [runCall, movieGet, Call.opsBound] using h,
      by norm_num [Call.opsBound], fun h2 => ?_⟩
    simp only [Call.earlyRejected] at h2
    simp [runCall, movieGet, movieGetTry, h2, catchPlain]
  | moviePutC idMovie body =>
    have h := ops_le_catchZodArr db _ 1 true (tryOk_moviePutTry idMovie body db)
    exact ⟨by simpa [runCall, moviePut, Call.opsBound] using h,
      by norm_num [Call.opsBound], fun h2 => by simp [Call.earlyRejected] at h2⟩
  | movieDeleteC idMovie =>
    have h := ops_le_catchPlain db _ 1 false (tryOk_movieDeleteTry idMovie db)
    exact ⟨by simpa [runCall, movieDelete, Call.opsBound] using h,
      by norm_num [Call.opsBound], fun h2 => by simp [Call.earlyRejected] at h2⟩
  | commentsGetC idMovie =>
    refine ⟨?_, by norm_num [Call.opsBound], fun h2 => ?_⟩
    · simp only [runCall, commentsGet, Call.opsBound]
      by_cases hg : (!isValidObjectId idMovie) = true
      · rw [if_pos hg]
        norm_num
      · rw [if_neg hg]
        exact ops_le_catchPlain db _ 1 false (tryOk_commentsGetTry idMovie db)
    · simp only [Call.earlyRejected] at h2
      simp [runCall, commentsGet, h2]
  | commentsPostC idMovie body now freshId =>
    refine ⟨?_, by norm_num [Call.opsBound], fun h2 => ?_⟩
    · simp only [runCall, commentsPost, Call.opsBound]
      by_cases hg : (!isValidObjectId idMovie) = true
      · rw [if_pos hg]
        norm_num
      · rw [if_neg hg]
        exact ops_le_catchZodArr db _ 2 true
          (tryOk_commentsPostTry idMovie body db now freshId)
    · simp only [Call.earlyRejected] at h2
      simp [runCall, commentsPost, h2]
  | commentsPutC =>
    exact ⟨by simp [runCall, commentsPut, Call.opsBound],
      by norm_num [Call.opsBound], fun h => by simp [Call.earlyRejected] at h⟩
  | commentsDeleteC =>
    exact ⟨by simp [runCall, commentsDelete, Call.opsBound],
      by norm_num [Call.opsBound], fun h => by simp [Call.earlyRejected] at h⟩
  | commentGetC idMovie idComment =>
    refine ⟨?_, by norm_num [Call.opsBound], fun h2 => ?_⟩
    · simp only [runCall, commentGet, Call.opsBound]
      by_cases hg : (!isValidObjectId idMovie || !isValidObjectId idComment) = true
      · rw [if_pos hg]
        norm_num
      · rw [if_neg hg]
        exact ops_le_catchPlain db _ 1 false (tryOk_commentGetTry idMovie idComment db)
    · simp only [Call.earlyRejected] at h2
      simp [runCall, commentGet, h2]
  | commentPutC idMovie idComment body =>
    refine ⟨?_, by norm_num [Call.opsBound], fun h2 => ?_⟩
    · simp only [runCall, commentPut, Call.opsBound]
      by_cases hg : (!isValidObjectId idMovie || !isValidObjectId idComment) = true
      · rw [if_pos hg]
        norm_num
      · rw [if_neg hg]
        exact ops_le_catchZodArr db _ 2 true
          (tryOk_commentPutTry idMovie idComment body db)
    · simp only [Call.earlyRejected] at h2
      simp [runCall, commentPut, h2]
  | commentDeleteC idMovie idComment =>
    refine ⟨?_, by norm_num [Call.opsBound], fun h2 => ?_⟩
    · simp only [runCall, commentDelete, Call.opsBound]
      by_cases hg : (!isValidObjectId idMovie || !isValidObjectId idComment) = true
      · rw [if_pos hg]
        norm_num
      · rw [if_neg hg]
        exact ops_le_catchPlain db _ 1 false (tryOk_commentDeleteTry idMovie idComment db)
    · simp only [Call.earlyRejected] at h2
      simp [runCall, commentDelete, h2]
  | theatersGetC =>
    exact ⟨by simp [runCall, theatersGet, Call.opsBound],
      by norm_num [Call.opsBound], fun h => by simp [Call.earlyRejected] at h⟩
  | theatersPostC body freshId =>
    have h := ops_le_catchZodArr db _ 3 true (tryOk_theatersPostTry body db freshId)
    exact ⟨by simpa [runCall, theatersPost, Call.opsBound] using h,
      by norm_num [Call.opsBound], fun h2 => by simp [Call.earlyRejected] at h2⟩
  | theatersPutC =>
    exact ⟨by simp [runCall, theatersPut, Call.opsBound],
      by norm_num [Call.opsBound], fun h => by simp [Call.earlyRejected] at h⟩
  | theatersDeleteC =>
    exact ⟨by simp [runCall, theatersDelete, Call.opsBound],
      by norm_num [Call.opsBound], fun h => by simp [Call.earlyRejected] at h⟩
  | theaterGetC idTheater =>
    refine ⟨?_, by norm_num [Call.opsBound], fun h2 => ?_⟩
    · simp only [runCall, theaterGet, Call.opsBound]
      by_cases hg : (!isValidObjectId idTheater) = true
      · rw [if_pos hg]
        norm_num
      · rw [if_neg hg]
        exact ops_le_catchPlain db _ 1 false (tryOk_theaterGetTry idTheater db)
    · simp only [Call.earlyRejected] at h2
      simp [runCall, theaterGet, h2]
  | theaterPutC idTheater body =>
    refine ⟨?_, by norm_num [Call.opsBound], fun h2 => ?_⟩
    · simp only [runCall, theaterPut, Call.opsBound]
      by_cases hg : (!isValidObjectId idTheater) = true
      · rw [if_pos hg]
        norm_num
      · rw [if_neg hg]
        exact ops_le_catchZodStr db _ 1 true (tryOk_theaterPutTry idTheater body db)
    · simp only [Call.earlyRejected] at h2
      simp [runCall, theaterPut, h2]
  | theaterDeleteC idTheater =>
    refine ⟨?_, by norm_num [Call.opsBound], fun h2 => ?_⟩
    · simp only [runCall, theaterDelete, Call.opsBound]
      by_cases hg : (!isValidObjectId idTheater) = true
      · rw [if_pos hg]
        norm_num
      · rw [if_neg hg]
        exact ops_le_catchPlain db _ 1 false (tryOk_theaterDeleteTry idTheater db)
    · simp only [Call.earlyRejected] at h2
      simp [runCall, theaterDelete, h2]
  | theaterPostC =>
    exact ⟨by simp [runCall, theaterPost, Call.opsBound],
      by norm_num [Call.opsBound], fun h => by simp [Call.earlyRejected] at h⟩

/-- Witness for the amended C1 at a concrete call stopped by the
ObjectId-format guard: its bound is one, within three, and the run
performed no database operation. -/
theorem claim1_amended_witness :
    (runCall (.theaterGetC "zz") dbW).2.2 ≤ (Call.theaterGetC "zz").opsBound ∧
    (Call.theaterGetC "zz").opsBound ≤ 3 ∧
    (runCall (.theaterGetC "zz") dbW).2.2 = 0 := by
  have h := claim1_amended_ops_bound (.theaterGetC "zz") dbW
  exact ⟨h.1, h.2.1, h.2.2 (by decide)⟩

/-- Counterexample to C1 as stated: a successful theater POST performs
three database operations, not exactly one. -/
theorem claim1_counterexample :
    (runCall (.theatersPostC (some theaterBodyW) oidC) dbEmpty).2.2 = 3 ∧
    (runCall (.theatersPostC (some theaterBodyW) oidC) dbEmpty).2.2 ≠ 1 := by
  constructor <;> decide

/-- C3 (amended): every handler returns an envelope whose status is one
of the emitted codes; a non-ZodError exception in a try block is caught
and mapped to the 500 Internal Server Error envelope with the error
message and an untouched database; a ZodError is caught and mapped to a
400 envelope. -/
theorem claim3_amended_catch_discipline (c : Call) (db : DB) :
    c3Post db (tryCall c db) (runCall c db) := by
  cases c with
  | moviesGetC =>
    simp only [runCall, tryCall]
    exact c3Post_ok db _ (by norm_num [statusOk, moviesGet])
  | moviesPostC body freshId =>
    simp only [runCall, tryCall, moviesPost]
    exact c3Post_catchPlain db _ (tryOk_status (tryOk_moviesPostTry body db freshId))
      (tryOk_no_zod (tryOk_moviesPostTry body db freshId))
  | moviesPutC =>
    simp only [runCall, tryCall]
    exact c3Post_ok db _ (by norm_num [statusOk, moviesPut, resp405])
  | moviesDeleteC =>
    simp only [runCall, tryCall]
    exact c3Post_ok db _ (by norm_num [statusOk, moviesDelete, resp405])
  | movieGetC idMovie =>
    simp only [runCall, tryCall, movieGet]
    exact c3Post_catchPlain db _ (tryOk_status (tryOk_movieGetTry idMovie db))
      (tryOk_no_zod (tryOk_movieGetTry idMovie db))
  | moviePutC idMovie body =>
    simp only [runCall, tryCall, moviePut]
    exact c3Post_catchZodArr db _ (tryOk_status (tryOk_moviePutTry idMovie body db))
  | movieDeleteC idMovie =>
    simp only [runCall, tryCall, movieDelete]
    exact c3Post_catchPlain db _ (tryOk_status (tryOk_movieDeleteTry idMovie db))
      (tryOk_no_zod (tryOk_movieDeleteTry idMovie db))
  | commentsGetC idMovie =>
    simp only [runCall, tryCall, commentsGet]
    by_cases hg : (!isValidObjectId idMovie) = true
    · rw [if_pos hg, if_pos hg]
      exact c3Post_ok db _ (by norm_num [statusOk])
    · rw [if_neg hg, if_neg hg]
      exact c3Post_catchPlain db _ (tryOk_status (tryOk_commentsGetTry idMovie db))
        (tryOk_no_zod (tryOk_commentsGetTry idMovie db))
  | commentsPostC idMovie body now freshId =>
    simp only [runCall, tryCall, commentsPost]
    by_cases hg : (!isValidObjectId idMovie) = true
    · rw [if_pos hg, if_pos hg]
      exact c3Post_ok db _ (by norm_num [statusOk])
    · rw [if_neg hg, if_neg hg]
      exact c3Post_catchZodArr db _
        (tryOk_status (tryOk_commentsPostTry idMovie body db now freshId))
  | commentsPutC =>
    simp only [runCall, tryCall]
    exact c3Post_ok db _ (by norm_num [statusOk, commentsPut, resp405])
  | commentsDeleteC =>
    simp only [runCall, tryCall]
    exact c3Post_ok db _ (by norm_num [statusOk, commentsDelete, resp405])
  | commentGetC idMovie idComment =>
    simp only [runCall, tryCall, commentGet]
    by_cases hg : (!isValidObjectId idMovie || !isValidObjectId idComment) = true
    · rw [if_pos hg, if_pos hg]
      exact c3Post_ok db _ (by norm_num [statusOk])
    · rw [if_neg hg, if_neg hg]
      exact c3Post_catchPlain db _ (tryOk_status (tryOk_commentGetTry idMovie idComment db))
        (tryOk_no_zod (tryOk_commentGetTry idMovie idComment db))
  | commentPutC idMovie idComment body =>
    simp only [runCall, tryCall, commentPut]
    by_cases hg : (!isValidObjectId idMovie || !isValidObjectId idComment) = true
    · rw [if_pos hg, if_pos hg]
      exact c3Post_ok db _ (by norm_num [statusOk])
    · rw [if_neg hg, if_neg hg]
      exact c3Post_catchZodArr db _
        (tryOk_status (tryOk_commentPutTry idMovie idComment body db))
  | commentDeleteC idMovie idComment =>
    simp only [runCall, tryCall, commentDelete]
    by_cases hg : (!isValidObjectId idMovie || !isValidObjectId idComment) = true
    · rw [if_pos hg, if_pos hg]
      exact c3Post_ok db _ (by norm_num [statusOk])
    · rw [if_neg hg, if_neg hg]
      exact c3Post_catchPlain db _ (tryOk_status (tryOk_commentDeleteTry idMovie idComment db))
        (tryOk_no_zod (tryOk_commentDeleteTry idMovie idComment db))
  | theatersGetC =>
    simp only [runCall, tryCall]
    exact c3Post_ok db _ (by norm_num [statusOk, theatersGet])
  | theatersPostC body freshId =>
    simp only [runCall, tryCall, theatersPost]
    exact c3Post_catchZodArr db _ (tryOk_status (tryOk_theatersPostTry body db freshId))
  | theatersPutC =>
    simp only [runCall, tryCall]
    exact c3Post_ok db _ (by norm_num [statusOk, theatersPut, resp405])
  | theatersDeleteC =>
    simp only [runCall, tryCall]
    exact c3Post_ok db _ (by norm_num [statusOk, theatersDelete, resp405])
  | theaterGetC idTheater =>
    simp only [runCall, tryCall, theaterGet]
    by_cases hg : (!isValidObjectId idTheater) = true
    · rw [if_pos hg, if_pos hg]
      exact c3Post_ok db _ (by norm_num [statusOk])
    · rw [if_neg hg, if_neg hg]
      exact c3Post_catchPlain db _ (tryOk_status (tryOk_theaterGetTry idTheater db))
        (tryOk_no_zod (tryOk_theaterGetTry idTheater db))
  | theaterPutC idTheater body =>
    simp only [runCall, tryCall, theaterPut]
    by_cases hg : (!isValidObjectId idTheater) = true
    · rw [if_pos hg, if_pos hg]
      exact c3Post_ok db _ (by norm_num [statusOk])
    · rw [if_neg hg, if_neg hg]
      exact c3Post_catchZodStr db _ (tryOk_status (tryOk_theaterPutTry idTheater body db))
  | theaterDeleteC idTheater =>
    simp only [runCall, tryCall, theaterDelete]
    by_cases hg : (!isValidObjectId idTheater) = true
    · rw [if_pos hg, if_pos hg]
      exact c3Post_ok db _ (by norm_num [statusOk])
    · rw [if_neg hg, if_neg hg]
      exact c3Post_catchPlain db _ (tryOk_status (tryOk_theaterDeleteTry idTheater db))
        (tryOk_no_zod (tryOk_theaterDeleteTry idTheater db))
  | theaterPostC =>
    simp only [runCall, tryCall]
    exact c3Post_ok db _ (by norm_num [statusOk, theaterPost, resp405])

/-- Witness for the amended C3 at a concrete call: the movie DELETE try
block raises a BSONError on an invalid id and the handler returns the
500 envelope. -/
theorem claim3_amended_witness :
    c3Post dbW (tryCall (.movieDeleteC "nope") dbW) (runCall (.movieDeleteC "nope") dbW) :=
  claim3_amended_catch_discipline (.movieDeleteC "nope") dbW

/-- Counterexample to C3 as stated: the theater POST try block raises a
ZodError on an invalid body, yet the envelope is a 400, not the claimed
500 Internal Server Error envelope. -/
theorem claim3_counterexample :
    tryCall (.theatersPostC (some (.obj [])) oidC) dbEmpty =
      .error (.zodErr ["location"], 1) ∧
    (runCall (.theatersPostC (some (.obj [])) oidC) dbEmpty).1.status = 400 :=
  ⟨rfl, rfl⟩

theorem createFromHexString_eq_none_of_invalid (s : String) (h : isValidObjectId s = false) :
    createFromHexString s = none := by
  simp only [isValidObjectId, Bool.or_eq_false_iff] at h
  simp only [createFromHexString, h.2, Bool.false_eq_true, if_false]

theorem moviePutTry_invalid (idM : String) (body : Option Json) (db : DB)
    (h : createFromHexString idM = none) :
    moviePutTry idM body db = .error (.jsonReadErr jsonReadMsg, 0) ∨
    moviePutTry idM body db = .error (.bsonErr bsonHexMsg, 0) ∨
    ∃ is, moviePutTry idM body db = .error (.zodErr is, 0) := by
  cases body with
  | none =>
    left
    rfl
  | some b =>
    rcases hconv : moviePutConvertId b with e | b2
    · have he := moviePutConvertId_error b e hconv
      subst he
      right
      left
      simp [moviePutTry, hconv]
    · rcases hparse : movieParse b2 with is | data
      · right
        right
        exact ⟨is, by simp [moviePutTry, hconv, hparse]⟩
      · right
        left
        simp [moviePutTry, hconv, hparse, h]

/-- C2 (amended): on an invalid ObjectId path parameter the movie GET,
comments GET/POST, comment GET/PUT/DELETE and theater GET/PUT/DELETE
handlers return the 400 invalid-ID envelope without touching the
database; movie PUT and movie DELETE have no isValid check, so the
invalid id surfaces as a thrown conversion error: movie DELETE returns
the 500 Internal Server Error envelope and movie PUT returns either a
400 validation envelope (when the body already fails its schema) or the
500 envelope, in all cases with no database operation performed and the
database unchanged. -/
theorem claim2_amended_invalid_id (idM idC idT : String) (body : Option Json) (db : DB)
    (now : Int) (freshId : String)
    (hM : isValidObjectId idM = false) (_hC : isValidObjectId idC = false)
    (hT : isValidObjectId idT = false) :
    movieGet idM db =
      ({ status := 400, message := some "Invalid movie ID",
         error := some "ID format is incorrect" }, db, 0) ∧
    commentsGet idM db =
      ({ status := 400, message := some "Invalid movie ID",
         error := some "ID format is incorrect" }, db, 0) ∧
    commentsPost idM body db now freshId =
      ({ status := 400, message := some "Invalid movie ID",
         error := some "ID format is incorrect" }, db, 0) ∧
    commentGet idM idC db =
      ({ status := 400, message := some "Invalid movie ID or comment ID" }, db, 0) ∧
    commentPut idM idC body db =
      ({ status := 400, message := some "Invalid movie ID or comment ID" }, db, 0) ∧
    commentDelete idM idC db =
      ({ status := 400, message := some "Invalid movie ID or comment ID" }, db, 0) ∧
    theaterGet idT db =
      ({ status := 400, message := some "Invalid Theater ID",
         error := some "ID format is incorrect" }, db, 0) ∧
    theaterPut idT body db =
      ({ status := 400, message := some "Invalid Theater ID",
         error := some "ID format is incorrect" }, db, 0) ∧
    theaterDelete idT db =
      ({ status := 400, message := some "Invalid Theater ID",
         error := some "ID format is incorrect" }, db, 0) ∧
    ((moviePut idM body db).1.status = 400 ∨ (moviePut idM body db).1.status = 500) ∧
    (moviePut idM body db).2.1 = db ∧ (moviePut idM body db).2.2 = 0 ∧
    movieDelete idM db = (resp500 (.bsonErr bsonHexMsg), db, 0) := by
  have hhex : createFromHexString idM = none := createFromHexString_eq_none_of_invalid idM hM
  refine ⟨?_, ?_, ?_, ?_, ?_, ?_, ?_, ?_, ?_, ?_, ?_, ?_, ?_⟩
  · simp [movieGet, movieGetTry, catchPlain, hM]
  · simp [commentsGet, hM]
  · simp [commentsPost, hM]
  · simp [commentGet, hM]
  · simp [commentPut, hM]
  · simp [commentDelete, hM]
  · simp [theaterGet, hT]
  · simp [theaterPut, hT]
  · simp [theaterDelete, hT]
  · rcases moviePutTry_invalid idM body db hhex with h | h | ⟨is, h⟩ <;>
      simp [moviePut, h, catchZodArr, resp500, respZodArr]
  · rcases moviePutTry_invalid idM body db hhex with h | h | ⟨is, h⟩ <;>
      simp [moviePut, h, catchZodArr]
  · rcases moviePutTry_invalid idM body db hhex with h | h | ⟨is, h⟩ <;>
      simp [moviePut, h, catchZodArr]
  · simp [movieDelete, movieDeleteTry, hhex, catchPlain]

/-- Witness for the amended C2 at concrete invalid ids. -/
theorem claim2_amended_witness :
    movieGet "zz" dbEmpty =
      ({ status := 400, message := some "Invalid movie ID",
         error := some "ID format is incorrect" }, dbEmpty, 0) ∧
    commentsGet "zz" dbEmpty =
      ({ status := 400, message := some "Invalid movie ID",
         error := some "ID format is incorrect" }, dbEmpty, 0) ∧
    commentsPost "zz" none dbEmpty 0 oidC =
      ({ status := 400, message := some "Invalid movie ID",
         error := some "ID format is incorrect" }, dbEmpty, 0) ∧
    commentGet "zz" "q" dbEmpty =
      ({ status := 400, message := some "Invalid movie ID or comment ID" }, dbEmpty, 0) ∧
    commentPut "zz" "q" none dbEmpty =
      ({ status := 400, message := some "Invalid movie ID or comment ID" }, dbEmpty, 0) ∧
    commentDelete "zz" "q" dbEmpty =
      ({ status := 400, message := some "Invalid movie ID or comment ID" }, dbEmpty, 0) ∧
    theaterGet "q" dbEmpty =
      ({ status := 400, message := some "Invalid Theater ID",
         error := some "ID format is incorrect" }, dbEmpty, 0) ∧
    theaterPut "q" none dbEmpty =
      ({ status := 400, message := some "Invalid Theater ID",
         error := some "ID format is incorrect" }, dbEmpty, 0) ∧
    theaterDelete "q" dbEmpty =
      ({ status := 400, message := some "Invalid Theater ID",
         error := some "ID format is incorrect" }, dbEmpty, 0) ∧
    ((moviePut "zz" none dbEmpty).1.status = 400 ∨ (moviePut "zz" none dbEmpty).1.status = 500) ∧
    (moviePut "zz" none dbEmpty).2.1 = dbEmpty ∧ (moviePut "zz" none dbEmpty).2.2 = 0 ∧
    movieDelete "zz" dbEmpty = (resp500 (.bsonErr bsonHexMsg), dbEmpty, 0) :=
  claim2_amended_invalid_id "zz" "q" "q" none dbEmpty 0 oidC (by decide) (by decide) (by decide)

/-- Counterexample to C2 as stated: movie DELETE on an invalid id does
not return a 400 invalid-ID envelope but a 500. -/
theorem claim2_counterexample :
    isValidObjectId "zz" = false ∧
    (movieDelete "zz" dbEmpty).1.status = 500 ∧
    (movieDelete "zz" dbEmpty).1.status ≠ 400 := by
  refine ⟨by decide, rfl, by decide⟩

theorem isValid_of_hex (s o : String) (h : createFromHexString s = some o) :
    isValidObjectId s = true := by
  simp only [createFromHexString] at h
  split at h
  · rename_i hcond
    simp only [isValidObjectId, hcond, Bool.or_true]
  · simp at h

/-- C5: GET on a by-ID route with a 24-hex ObjectId parameter returns a
200 envelope containing the looked-up document when the handler query
finds one (by _id for movies and theaters, by _id and movie_id for the
movie-scoped comment route), and a 404 not-found envelope otherwise,
leaving the database unchanged in both cases. -/
theorem claim5_get_by_id (idM idT idC : String) (oidM oidT oidCx : String) (db : DB)
    (hm : createFromHexString idM = some oidM)
    (ht : createFromHexString idT = some oidT)
    (hc : createFromHexString idC = some oidCx) :
    (match mongoFindOne db.movies [(["_id"], .oid oidM)] with
     | some m =>
       movieGet idM db = ({ status := 200, data := some (.obj [("movie", m)]) }, db, 1)
     | none =>
       movieGet idM db =
         ({ status := 404, message := some "Movie not found",
            error := some "No movie found with the given ID" }, db, 1)) ∧
    (match mongoFindOne db.theaters [(["_id"], .oid oidT)] with
     | some t =>
       theaterGet idT db = ({ status := 200, data := some (.obj [("Theater", t)]) }, db, 1)
     | none =>
       theaterGet idT db =
         ({ status := 404, message := some "Theater not found",
            error := some "No Theater found with the given ID" }, db, 1)) ∧
    (match mongoFindOne db.comments [(["_id"], .oid oidCx), (["movie_id"], .oid oidM)] with
     | some c =>
       commentGet idM idC db = ({ status := 200, data := some c }, db, 1)
     | none =>
       commentGet idM idC db =
         ({ status := 404, message := some "Comment not found for this movie" }, db, 1)) := by
  have hvm := isValid_of_hex idM oidM hm
  have hvt := isValid_of_hex idT oidT ht
  have hvc := isValid_of_hex idC oidCx hc
  refine ⟨?_, ?_, ?_⟩
  · rcases hfo : mongoFindOne db.movies [(["_id"], .oid oidM)] with _ | m <;>
      simp [movieGet, movieGetTry, catchPlain, hvm, hm, hfo]
  · rcases hfo : mongoFindOne db.theaters [(["_id"], .oid oidT)] with _ | t <;>
      simp [theaterGet, theaterGetTry, catchPlain, hvt, ht, hfo]
  · rcases hfo : mongoFindOne db.comments
        [(["_id"], .oid oidCx), (["movie_id"], .oid oidM)] with _ | c <;>
      simp [commentGet, commentGetTry, catchPlain, hvm, hvc, hm, hc, hfo]

/-- Witness for C5 at a concrete database holding one movie, no theater
and one comment: 200 on the movie, 404 on the theater, 200 on the
comment. -/
theorem claim5_witness :
    (match mongoFindOne dbW.movies [(["_id"], .oid oidA)] with
     | some m =>
       movieGet oidA dbW = ({ status := 200, data := some (.obj [("movie", m)]) }, dbW, 1)
     | none =>
       movieGet oidA dbW =
         ({ status := 404, message := some "Movie not found",
            error := some "No movie found with the given ID" }, dbW, 1)) ∧
    (match mongoFindOne dbW.theaters [(["_id"], .oid oidA)] with
     | some t =>
       theaterGet oidA dbW = ({ status := 200, data := some (.obj [("Theater", t)]) }, dbW, 1)
     | none =>
       theaterGet oidA dbW =
         ({ status := 404, message := some "Theater not found",
            error := some "No Theater found with the given ID" }, dbW, 1)) ∧
    (match mongoFindOne dbW.comments [(["_id"], .oid oidB), (["movie_id"], .oid oidA)] with
     | some c =>
       commentGet oidA oidB dbW = ({ status := 200, data := some c }, dbW, 1)
     | none =>
       commentGet oidA oidB dbW =
         ({ status := 404, message := some "Comment not found for this movie" }, dbW, 1)) :=
  claim5_get_by_id oidA oidA oidB oidA oidA oidB dbW (by decide) (by decide) (by decide)

/-- C4: whenever a writing handler runs its schema validation and the
payload fails it, the handler returns a 400 envelope carrying the
validation errors, the database is unchanged, and no insert or update is
performed (the operation counter counts only the reads that preceded the
validation). -/
theorem claim4_validation_guards_writes (idM idT idM2 idM3 idC3 : String)
    (oidM2 oidM3 oidC3 : String) (bM bMp bMp2 bT bTu bC bCp : Json) (db : DB)
    (now : Int) (freshId : String) :
    (∀ isM, movieParse bM = .error isM →
      moviesPost (some bM) db freshId =
        ({ status := 400, message := some "Invalid movie data",
           errors := some (issuesJson isM) }, db, 0)) ∧
    (∀ isMp, moviePutConvertId bMp = .ok bMp2 → movieParse bMp2 = .error isMp →
      moviePut idM (some bMp) db = (respZodArr isMp, db, 0)) ∧
    (∀ isT, theaterParse (bT.setField "theaterId" (newIdJson (theatersNewId db))) = .error isT →
      theatersPost (some bT) db freshId = (respZodArr isT, db, 1)) ∧
    (∀ isTu, isValidObjectId idT = true → theaterUpdateParse bTu = .error isTu →
      theaterPut idT (some bTu) db =
        ({ status := 400, message := some "Validation error",
           errors := some (.str (zodMessage isTu)) }, db, 0)) ∧
    (∀ isC mdoc, createFromHexString idM2 = some oidM2 →
      mongoFindOne db.movies [(["_id"], .oid oidM2)] = some mdoc →
      commentNoIdParse (commentToValidate bC oidM2 now) = .error isC →
      commentsPost idM2 (some bC) db now freshId = (respZodArr isC, db, 1)) ∧
    (∀ isCp cdoc, createFromHexString idM3 = some oidM3 →
      createFromHexString idC3 = some oidC3 →
      mongoFindOne db.comments [(["_id"], .oid oidC3), (["movie_id"], .oid oidM3)] = some cdoc →
      commentPickParse bCp = .error isCp →
      commentPut idM3 idC3 (some bCp) db = (respZodArr isCp, db, 1)) := by
  refine ⟨?_, ?_, ?_, ?_, ?_, ?_⟩
  · intro isM hparse
    simp [moviesPost, moviesPostTry, hparse, catchPlain]
  · intro isMp hconv hparse
    simp [moviePut, moviePutTry, hconv, hparse, catchZodArr]
  · intro isT hparse
    simp [theatersPost, theatersPostTry, hparse, catchZodArr]
  · intro isTu hvt hparse
    simp [theaterPut, theaterPutTry, hvt, hparse, catchZodStr]
  · intro isC mdoc hm hfind hparse
    have hv := isValid_of_hex idM2 oidM2 hm
    simp [commentsPost, commentsPostTry, hv, hm, hfind, hparse, catchZodArr]
  · intro isCp cdoc hm3 hc3 hfind hparse
    have hv3 := isValid_of_hex idM3 oidM3 hm3
    have hvc3 := isValid_of_hex idC3 oidC3 hc3
    simp [commentPut, commentPutTry, hv3, hvc3, hm3, hc3, hfind, hparse, catchZodArr]

/-- Witness for C4: each writing handler rejects an empty-object payload
with a 400 validation envelope and leaves the concrete database as it
was. -/
theorem claim4_witness :
    moviesPost (some (.obj [])) dbW oidC =
      ({ status := 400, message := some "Invalid movie data",
         errors := some (issuesJson
           ["plot", "genres", "num_mflix_comments", "title", "year"]) }, dbW, 0) ∧
    moviePut oidA (some (.obj [])) dbW =
      (respZodArr ["plot", "genres", "num_mflix_comments", "title", "year"], dbW, 0) ∧
    theatersPost (some (.obj [])) dbW oidC = (respZodArr ["location"], dbW, 1) ∧
    theaterPut oidA (some (.obj [])) dbW =
      ({ status := 400, message := some "Validation error",
         errors := some (.str (zodMessage ["location"])) }, dbW, 0) ∧
    commentsPost oidA (some (.obj [])) dbW 0 oidC =
      (respZodArr ["name", "email", "text"], dbW, 1) ∧
    commentPut oidA oidB (some (.obj [])) dbW =
      (respZodArr ["name", "email", "text"], dbW, 1) := by
  have h := claim4_validation_guards_writes oidA oidA oidA oidA oidB oidA oidA oidB
    (.obj []) (.obj []) (.obj []) (.obj []) (.obj []) (.obj []) (.obj []) dbW 0 oidC
  exact ⟨h.1 _ rfl,
         h.2.1 _ rfl rfl,
         h.2.2.1 _ rfl,
         h.2.2.2.1 _ rfl rfl,
         h.2.2.2.2.1 _ movieDocW rfl rfl rfl,
         h.2.2.2.2.2 _ commentDocW rfl rfl rfl rfl⟩

theorem getPath_single (j : Json) (k : String) : j.getPath [k] = j.getField k := by
  rcases hgf : j.getField k with _ | v <;> simp [Json.getPath, hgf]

theorem eq_of_beq_oid (v : Json) (s : String) (h : Json.beq v (.oid s) = true) :
    v = .oid s := by
  cases v <;> simp [Json.beq] at h ⊢
  exact h

theorem matchesCond_field_oid (d : Json) (k s : String)
    (h : matchesCond d ([k], .oid s) = true) : d.getField k = some (.oid s) := by
  simp only [matchesCond, getPath_single] at h
  rcases hgf : d.getField k with _ | v
  · rw [hgf] at h
    simp at h
  · rw [hgf] at h
    exact congrArg some (eq_of_beq_oid v s (by simpa using h))

theorem mongoFindOne_mem (docs : List Json) (q : List Cond) (d : Json)
    (h : mongoFindOne docs q = some d) : d ∈ docs ∧ matchesQuery d q = true := by
  induction docs with
  | nil => simp [mongoFindOne, List.find?] at h
  | cons x rest ih =>
    simp only [mongoFindOne, List.find?] at h ih
    rcases hm : matchesQuery x q with _ | _ <;> simp only [hm] at h
    · obtain ⟨h1, h2⟩ := ih h
      exact ⟨List.mem_cons_of_mem _ h1, h2⟩
    · cases h
      exact ⟨List.mem_cons_self _ _, hm⟩

theorem mongoDeleteOne_shape (docs : List Json) (q : List Cond) :
    (mongoDeleteOne docs q = (docs, 0) ∧ ∀ d ∈ docs, matchesQuery d q = false) ∨
    ∃ pre d post, docs = pre ++ d :: post ∧ matchesQuery d q = true ∧
      mongoDeleteOne docs q = (pre ++ post, 1) := by
  induction docs with
  | nil =>
    left
    exact ⟨rfl, by simp⟩
  | cons d rest ih =>
    by_cases hm : matchesQuery d q
    · right
      exact ⟨[], d, rest, rfl, hm, by simp [mongoDeleteOne, hm]⟩
    · rcases ih with ⟨h1, h2⟩ | ⟨pre, d2, post, hd, hm2, hres⟩
      · left
        refine ⟨by simp [mongoDeleteOne, hm, h1], ?_⟩
        intro d3 hd3
        rcases List.mem_cons.mp hd3 with rfl | hmem
        · exact Bool.not_eq_true _ ▸ hm
        · exact h2 d3 hmem
      · right
        exact ⟨d :: pre, d2, post, by rw [hd]; rfl, hm2,
          by simp [mongoDeleteOne, hm, hres]⟩

theorem mongoUpdateOne_shape (docs : List Json) (q : List Cond) (upd : List (String × Json)) :
    (mongoUpdateOne docs q upd = (docs, 0) ∧ ∀ d ∈ docs, matchesQuery d q = false) ∨
    ∃ pre d post, docs = pre ++ d :: post ∧ matchesQuery d q = true ∧
      mongoUpdateOne docs q upd = (pre ++ applySet d upd :: post, 1) := by
  induction docs with
  | nil =>
    left
    exact ⟨rfl, by simp⟩
  | cons d rest ih =>
    by_cases hm : matchesQuery d q
    · right
      exact ⟨[], d, rest, rfl, hm, by simp [mongoUpdateOne, hm]⟩
    · rcases ih with ⟨h1, h2⟩ | ⟨pre, d2, post, hd, hm2, hres⟩
      · left
        refine ⟨by simp [mongoUpdateOne, hm, h1], ?_⟩
        intro d3 hd3
        rcases List.mem_cons.mp hd3 with rfl | hmem
        · exact Bool.not_eq_true _ ▸ hm
        · exact h2 d3 hmem
      · right
        exact ⟨d :: pre, d2, post, by rw [hd]; rfl, hm2,
          by simp [mongoUpdateOne, hm, hres]⟩

theorem parseObj_ok_shape (specs : List FieldSpec) (j o : Json)
    (h : parseObj specs j = .ok o) :
    ∃ fs, j = .obj fs ∧ (runSpecs fs specs).1 = [] ∧ o = .obj (runSpecs fs specs).2 := by
  cases j <;> simp only [parseObj] at h <;> try exact absurd h (by simp)
  rename_i fs
  by_cases he : (runSpecs fs specs).1 = []
  · rw [if_pos he] at h
    cases h
    exact ⟨fs, rfl, he, rfl⟩
  · rw [if_neg he] at h
    exact absurd h (by simp)

theorem numKey_eq_some_iff (d : Json) (k : Int) :
    numKey d = some k ↔ d.getField "theaterId" = some (.num k) := by
  unfold numKey
  rcases hgf : d.getField "theaterId" with _ | v
  · simp
  · cases v <;> simp

theorem foldl_pickLatest_spec (docs : List Json) :
    ∀ (init : Json) (m0 : Int), numKey init = some m0 →
      (∀ d ∈ docs, ∃ k : Int, numKey d = some k) →
      ∃ m : Int, numKey (docs.foldl pickLatest init) = some m ∧ m0 ≤ m ∧
        (docs.foldl pickLatest init = init ∨ docs.foldl pickLatest init ∈ docs) ∧
        (∀ d ∈ docs, ∀ k : Int, numKey d = some k → k ≤ m) ∧
        (m = m0 ∨ ∃ d ∈ docs, numKey d = some m) := by
  induction docs with
  | nil =>
    intro init m0 h0 _
    exact ⟨m0, h0, le_refl m0, Or.inl rfl, by simp, Or.inl rfl⟩
  | cons d rest ih =>
    intro init m0 h0 hall
    obtain ⟨k, hk⟩ := hall d (List.mem_cons_self _ _)
    have hrest : ∀ d2 ∈ rest, ∃ k2 : Int, numKey d2 = some k2 :=
      fun d2 h2 => hall d2 (List.mem_cons_of_mem _ h2)
    by_cases hgt : k > m0
    · have hpick : pickLatest init d = d := by
        simp [pickLatest, hk, h0, hgt]
      obtain ⟨m, hm, hle, hmem, hub, hreach⟩ := ih d k hk hrest
      rw [List.foldl_cons, hpick]
      refine ⟨m, hm, le_of_lt (lt_of_lt_of_le hgt hle), ?_, ?_, ?_⟩
      · rcases hmem with h | h
        · exact Or.inr (by rw [h]; exact List.mem_cons_self _ _)
        · exact Or.inr (List.mem_cons_of_mem _ h)
      · intro d2 hd2 k2 hk2
        rcases List.mem_cons.mp hd2 with rfl | hmem2
        · rw [hk] at hk2
          cases hk2
          exact hle
        · exact hub d2 hmem2 k2 hk2
      · rcases hreach with h | ⟨d2, hd2, hk2⟩
        · exact Or.inr ⟨d, List.mem_cons_self _ _, h ▸ hk⟩
        · exact Or.inr ⟨d2, List.mem_cons_of_mem _ hd2, hk2⟩
    · have hpick : pickLatest init d = init := by
        simp [pickLatest, hk, h0, hgt]
      obtain ⟨m, hm, hle, hmem, hub, hreach⟩ := ih init m0 h0 hrest
      rw [List.foldl_cons, hpick]
      refine ⟨m, hm, hle, ?_, ?_, ?_⟩
      · rcases hmem with h | h
        · exact Or.inl h
        · exact Or.inr (List.mem_cons_of_mem _ h)
      · intro d2 hd2 k2 hk2
        rcases List.mem_cons.mp hd2 with rfl | hmem2
        · rw [hk] at hk2
          cases hk2
          exact le_trans (le_of_not_lt hgt) hle
        · exact hub d2 hmem2 k2 hk2
      · rcases hreach with h | ⟨d2, hd2, hk2⟩
        · exact Or.inl h
        · exact Or.inr ⟨d2, List.mem_cons_of_mem _ hd2, hk2⟩

/-- C6: comments are related to movies.  POST on a movie's comment
collection inserts nothing and returns 404 when the movie does not
exist; a successful POST appends exactly one comment whose movie_id is
the path movie id; GET on a specific comment only ever returns a comment
whose movie_id is the path movie id; DELETE only ever removes such a
comment; and PUT, whose update filters on _id alone after an existence
check on _id and movie_id, only ever modifies such a comment provided
comment _id values are unique (which MongoDB enforces). -/
theorem claim6_comments_scoped_to_movie (idM idC : String) (oidM oidCx : String)
    (body : Json) (db : DB) (now : Int) (freshId : String)
    (hm : createFromHexString idM = some oidM)
    (hc : createFromHexString idC = some oidCx) :
    (mongoFindOne db.movies [(["_id"], .oid oidM)] = none →
      commentsPost idM (some body) db now freshId =
        ({ status := 404, message := some "Movie not found",
           error := some "No movie found with the given ID" }, db, 1)) ∧
    (∀ mdoc data, mongoFindOne db.movies [(["_id"], .oid oidM)] = some mdoc →
      commentNoIdParse (commentToValidate body oidM now) = .ok data →
      ∃ newDoc,
        (commentsPost idM (some body) db now freshId).2.1.comments =
          db.comments ++ [newDoc] ∧
        newDoc.getField "movie_id" = some (.oid oidM) ∧
        (commentsPost idM (some body) db now freshId).1.status = 201) ∧
    (∀ c, (commentGet idM idC db).1.data = some c →
      c.getField "movie_id" = some (.oid oidM)) ∧
    ((commentDelete idM idC db).2.1 = db ∨
      ∃ pre d post, db.comments = pre ++ d :: post ∧
        d.getField "movie_id" = some (.oid oidM) ∧
        (commentDelete idM idC db).2.1.comments = pre ++ post) ∧
    ((∀ d1 ∈ db.comments, ∀ d2 ∈ db.comments,
        d1.getField "_id" = d2.getField "_id" → d1 = d2) →
      (commentPut idM idC (some body) db).2.1 = db ∨
      ∃ pre d post upd, db.comments = pre ++ d :: post ∧
        d.getField "movie_id" = some (.oid oidM) ∧
        (commentPut idM idC (some body) db).2.1.comments =
          pre ++ applySet d upd :: post) := by
  have hv := isValid_of_hex idM oidM hm
  have hvc := isValid_of_hex idC oidCx hc
  refine ⟨?_, ?_, ?_, ?_, ?_⟩
  · intro hfo
    simp [commentsPost, commentsPostTry, hv, hm, hfo, catchZodArr]
  · intro mdoc data hfo hparse
    obtain ⟨fs, hfs, herr, hout⟩ := parseObj_ok_shape commentNoIdSpecs _ data hparse
    have hnoid : data.getField "_id" = none := by
      rw [hout]
      simp only [Json.getField]
      apply lookupField_eq_none_of_keys_ne
      intro kv hkv
      have hmem := runSpecs_keys_mem fs commentNoIdSpecs kv hkv
      simp [commentNoIdSpecs] at hmem
      rcases hmem with h | h | h | h | h <;> rw [h] <;> decide
    have hlook : lookupField fs "movie_id" = some (.oid oidM) := by
      cases body with
      | obj bfs =>
        have hfs2 : fs = setFieldList (setFieldList bfs "movie_id" (.oid oidM))
            "date" (.date now) := by
          have := hfs.symm
          simpa [commentToValidate, Json.setField] using this
        rw [hfs2, lookupField_setFieldList_ne _ _ _ _ (by decide),
          lookupField_setFieldList_self]
      | null => simp [commentToValidate, Json.setField] at hfs
      | bool b => simp [commentToValidate, Json.setField] at hfs
      | num n => simp [commentToValidate, Json.setField] at hfs
      | str s => simp [commentToValidate, Json.setField] at hfs
      | oid i => simp [commentToValidate, Json.setField] at hfs
      | date ms => simp [commentToValidate, Json.setField] at hfs
      | arr xs => simp [commentToValidate, Json.setField] at hfs
    have hfind : commentNoIdSpecs.find? (fun s => s.name == "movie_id") =
        some ⟨"movie_id", true, chkOid⟩ := rfl
    obtain ⟨v2, hchk, hlo⟩ :=
      runSpecs_lookup_present fs commentNoIdSpecs "movie_id" _ _ hfind hlook herr
    have hv2 : v2 = .oid oidM := by
      have : some (Json.oid oidM) = some v2 := by simpa [chkOid] using hchk
      exact (Option.some.injEq _ _ ▸ this).symm
    refine ⟨data.setField "_id" (.oid freshId), ?_, ?_, ?_⟩
    · simp [commentsPost, commentsPostTry, hv, hm, hfo, hparse, catchZodArr,
        mongoInsertOne, hnoid]
    · rw [getField_setField_ne data "_id" _ "movie_id" (by decide), hout]
      simp only [Json.getField]
      rw [hlo, hv2]
    · simp [commentsPost, commentsPostTry, hv, hm, hfo, hparse, catchZodArr,
        mongoInsertOne, hnoid]
  · intro c hdata
    rcases hfo : mongoFindOne db.comments
        [(["_id"], .oid oidCx), (["movie_id"], .oid oidM)] with _ | c0
    · simp [commentGet, commentGetTry, hv, hvc, hm, hc, hfo, catchPlain] at hdata
    · have hc0 : c = c0 := by
        simp [commentGet, commentGetTry, hv, hvc, hm, hc, hfo, catchPlain] at hdata
        exact hdata.symm
      subst hc0
      obtain ⟨_, hq⟩ := mongoFindOne_mem _ _ _ hfo
      simp only [matchesQuery, List.all_cons, List.all_nil, Bool.and_eq_true,
        Bool.and_true] at hq
      exact matchesCond_field_oid _ _ _ hq.2
  · rcases mongoDeleteOne_shape db.comments
        [(["_id"], .oid oidCx), (["movie_id"], .oid oidM)] with ⟨heq, _⟩ |
        ⟨pre, d, post, hsplit, hmatch, heq⟩
    · left
      simp [commentDelete, commentDeleteTry, hv, hvc, hm, hc, heq, catchPlain]
    · right
      refine ⟨pre, d, post, hsplit, ?_, ?_⟩
      · simp only [matchesQuery, List.all_cons, List.all_nil, Bool.and_eq_true,
          Bool.and_true] at hmatch
        exact matchesCond_field_oid _ _ _ hmatch.2
      · simp [commentDelete, commentDeleteTry, hv, hvc, hm, hc, heq, catchPlain]
  · intro huniq
    rcases hfo : mongoFindOne db.comments
        [(["_id"], .oid oidCx), (["movie_id"], .oid oidM)] with _ | c
    · left
      simp [commentPut, commentPutTry, hv, hvc, hm, hc, hfo, catchZodArr]
    · rcases hparse : commentPickParse body with is | data
      · left
        simp [commentPut, commentPutTry, hv, hvc, hm, hc, hfo, hparse, catchZodArr]
      · obtain ⟨hcmem, hcq⟩ := mongoFindOne_mem _ _ _ hfo
        simp only [matchesQuery, List.all_cons, List.all_nil, Bool.and_eq_true,
          Bool.and_true] at hcq
        rcases mongoUpdateOne_shape db.comments [(["_id"], .oid oidCx)] data.objFields with
          ⟨_, hnone⟩ | ⟨pre, d, post, hsplit, hmatch, heq⟩
        · exfalso
          have := hnone c hcmem
          simp only [matchesQuery, List.all_cons, List.all_nil, Bool.and_true] at this
          rw [hcq.1] at this
          simp at this
        · right
          have hdmem : d ∈ db.comments := by
            rw [hsplit]
            exact List.mem_append.mpr (Or.inr (List.mem_cons_self _ _))
          have hdid : d.getField "_id" = some (.oid oidCx) := by
            simp only [matchesQuery, List.all_cons, List.all_nil, Bool.and_true] at hmatch
            exact matchesCond_field_oid _ _ _ hmatch
          have hcid : c.getField "_id" = some (.oid oidCx) :=
            matchesCond_field_oid _ _ _ hcq.1
          have hdc : d = c := huniq d hdmem c hcmem (hdid.trans hcid.symm)
          refine ⟨pre, d, post, data.objFields, hsplit, ?_, ?_⟩
          · rw [hdc]
            exact matchesCond_field_oid _ _ _ hcq.2
          · simp [commentPut, commentPutTry, hv, hvc, hm, hc, hfo, hparse, heq,
              catchZodArr]

/-- Witness for C6 at concrete databases: 404 with nothing inserted on
the empty database, and insert / lookup / delete / update scoping on a
database with one movie and one comment. -/
theorem claim6_witness :
    commentsPost oidA (some commentBodyW) dbEmpty 5 oidC =
      ({ status := 404, message := some "Movie not found",
         error := some "No movie found with the given ID" }, dbEmpty, 1) ∧
    (∃ newDoc,
      (commentsPost oidA (some commentBodyW) dbW 5 oidC).2.1.comments =
        dbW.comments ++ [newDoc] ∧
      newDoc.getField "movie_id" = some (.oid oidA) ∧
      (commentsPost oidA (some commentBodyW) dbW 5 oidC).1.status = 201) ∧
    (∀ c, (commentGet oidA oidB dbW).1.data = some c →
      c.getField "movie_id" = some (.oid oidA)) ∧
    ((commentDelete oidA oidB dbW).2.1 = dbW ∨
      ∃ pre d post, dbW.comments = pre ++ d :: post ∧
        d.getField "movie_id" = some (.oid oidA) ∧
        (commentDelete oidA oidB dbW).2.1.comments = pre ++ post) ∧
    ((commentPut oidA oidB (some commentBodyW) dbW).2.1 = dbW ∨
      ∃ pre d post upd, dbW.comments = pre ++ d :: post ∧
        d.getField "movie_id" = some (.oid oidA) ∧
        (commentPut oidA oidB (some commentBodyW) dbW).2.1.comments =
          pre ++ applySet d upd :: post) := by
  have hA := claim6_comments_scoped_to_movie oidA oidB oidA oidB commentBodyW
    dbEmpty 5 oidC rfl rfl
  have hB := claim6_comments_scoped_to_movie oidA oidB oidA oidB commentBodyW
    dbW 5 oidC rfl rfl
  refine ⟨hA.1 rfl,
    hB.2.1 movieDocW
      (.obj [("name", .str "Ann"), ("email", .str "ann@example.com"),
             ("movie_id", .oid oidA), ("text", .str "nice"), ("date", .date 5)]) rfl rfl,
    hB.2.2.1, hB.2.2.2.1, hB.2.2.2.2 ?_⟩
  intro d1 h1 d2 h2 _
  simp [dbW] at h1 h2
  rw [h1, h2]

theorem runSpecs_required_present (fs : List (String × Json)) (specs : List FieldSpec)
    (sp : FieldSpec) (hmem : sp ∈ specs) (hreq : sp.required = true)
    (herr : (runSpecs fs specs).1 = []) : ∃ v, lookupField fs sp.name = some v := by
  induction specs with
  | nil => simp at hmem
  | cons s rest ih =>
    simp only [runSpecs] at herr
    rcases List.mem_cons.mp hmem with rfl | hmem2
    · rcases hlk : lookupField fs sp.name with _ | v <;> simp only [hlk] at herr
      · rw [hreq] at herr
        simp at herr
      · exact ⟨v, rfl⟩
    · rcases hlk : lookupField fs s.name with _ | w <;> simp only [hlk] at herr
      · rcases hre : s.required with _ | _ <;> simp only [hre] at herr
        · simp only [Bool.false_eq_true, if_neg] at herr
          exact ih hmem2 herr
        · simp at herr
      · rcases hch : s.check w with _ | w2 <;> simp only [hch] at herr
        · simp at herr
        · exact ih hmem2 herr

theorem chkNested_ok (specs : List FieldSpec) (v o : Json)
    (h : chkNested specs v = some o) : parseObj specs v = .ok o := by
  unfold chkNested at h
  rcases hp : parseObj specs v with e | a <;> rw [hp] at h <;>
    simp [Except.toOption] at h
  rw [h]

theorem chkStr_some (v v2 : Json) (h : chkStr v = some v2) : v2 = v := by
  cases v <;> simp [chkStr] at h
  rw [h]

theorem getPath_cons_eq (j1 j2 : Json) (k : String) (rest : List String)
    (h : j1.getField k = j2.getField k) : j1.getPath (k :: rest) = j2.getPath (k :: rest) := by
  simp only [Json.getPath, h]

theorem getField_removeField_self (j : Json) (k : String) :
    (j.removeField k).getField k = none := by
  cases j with
  | obj fs =>
    simp only [Json.removeField, Json.getField]
    apply lookupField_eq_none_of_keys_ne
    intro kv hkv
    have := (List.mem_filter.mp hkv).2
    simpa [bne_iff_ne] using this
  | null => rfl
  | bool b => rfl
  | num n => rfl
  | str s => rfl
  | oid i => rfl
  | date ms => rfl
  | arr xs => rfl

theorem parse_addr_field_echo (addrIn addrOut : Json) (f : String)
    (hfind : addressSpecs.find? (fun s => s.name == f) = some ⟨f, true, chkStr⟩)
    (h : parseObj addressSpecs addrIn = .ok addrOut) :
    addrOut.getField f = addrIn.getField f := by
  obtain ⟨afs, hafs, herr, hout⟩ := parseObj_ok_shape _ _ _ h
  obtain ⟨v, hv⟩ := runSpecs_required_present afs addressSpecs ⟨f, true, chkStr⟩
    (List.mem_of_find?_eq_some hfind) rfl herr
  obtain ⟨v2, hchk, hlo⟩ := runSpecs_lookup_present afs addressSpecs f _ v hfind hv herr
  have hv2 : v2 = v := chkStr_some v v2 hchk
  rw [hout, hafs]
  simp only [Json.getField]
  rw [hlo, hv2, hv]

theorem theaterParse_addr_echo (j data : Json) (f : String)
    (hfind : addressSpecs.find? (fun s => s.name == f) = some ⟨f, true, chkStr⟩)
    (h : theaterParse j = .ok data) :
    data.getPath ["location", "address", f] = j.getPath ["location", "address", f] := by
  obtain ⟨fs, hfs, herr, hout⟩ := parseObj_ok_shape theaterSpecs _ _ h
  obtain ⟨locIn, hlocIn⟩ := runSpecs_required_present fs theaterSpecs
    ⟨"location", true, chkNested locationSpecs⟩
    (List.mem_cons_of_mem _ (List.mem_cons_of_mem _ (List.mem_cons_self _ _))) rfl herr
  obtain ⟨loc2, hchk, hlo⟩ := runSpecs_lookup_present fs theaterSpecs "location" _ _
    rfl hlocIn herr
  have hlocp : parseObj locationSpecs locIn = .ok loc2 := chkNested_ok _ _ _ hchk
  obtain ⟨lfs, hlfs, herr2, hout2⟩ := parseObj_ok_shape locationSpecs _ _ hlocp
  obtain ⟨addrIn, haddrIn⟩ := runSpecs_required_present lfs locationSpecs
    ⟨"address", true, chkNested addressSpecs⟩ (List.mem_cons_self _ _) rfl herr2
  obtain ⟨addr2, hchk2, hlo2⟩ := runSpecs_lookup_present lfs locationSpecs "address" _ _
    rfl haddrIn herr2
  have haddrp : parseObj addressSpecs addrIn = .ok addr2 := chkNested_ok _ _ _ hchk2
  have hfield := parse_addr_field_echo addrIn addr2 f hfind haddrp
  have h1 : data.getField "location" = some loc2 := by
    rw [hout]
    simp only [Json.getField]
    exact hlo
  have h2 : j.getField "location" = some locIn := by
    rw [hfs]
    simp only [Json.getField]
    exact hlocIn
  have h3 : loc2.getField "address" = some addr2 := by
    rw [hout2]
    simp only [Json.getField]
    exact hlo2
  have h4 : locIn.getField "address" = some addrIn := by
    rw [hlfs]
    simp only [Json.getField]
    exact haddrIn
  have e1 : data.getPath ["location", "address", f] = loc2.getPath ["address", f] := by
    simp only [Json.getPath, h1]
  have e2 : j.getPath ["location", "address", f] = locIn.getPath ["address", f] := by
    simp only [Json.getPath, h2]
  have e3 : loc2.getPath ["address", f] = addr2.getPath [f] := by
    simp only [Json.getPath, h3]
  have e4 : locIn.getPath ["address", f] = addrIn.getPath [f] := by
    simp only [Json.getPath, h4]
  rw [e1, e2, e3, e4, getPath_single, getPath_single, hfield]

/-- C8: the theater POST handler computes the new theaterId as the
largest existing theaterId plus one (1 on an empty collection), rejects
a theater whose street1, city, state and zipcode already exist with a
400 Theater-already-exists envelope and no insert, and otherwise inserts
exactly one document carrying the computed theaterId.  The collection is
assumed wellformed (every theater document has a numeric theaterId), and
the duplicate query of the validated payload provably equals the
duplicate query of the raw request body. -/
theorem claim8_theater_post_id_and_duplicate (body : Json) (db : DB) (freshId : String)
    (hwf : ∀ d ∈ db.theaters, ∃ k : Int, d.getField "theaterId" = some (.num k)) :
    (db.theaters = [] → theatersNewId db = some 1) ∧
    (db.theaters ≠ [] → ∃ mx : Int, theatersNewId db = some (mx + 1) ∧
      (∃ d ∈ db.theaters, d.getField "theaterId" = some (.num mx)) ∧
      (∀ d ∈ db.theaters, ∀ k : Int, d.getField "theaterId" = some (.num k) → k ≤ mx)) ∧
    (∀ data, theaterParse (body.setField "theaterId" (newIdJson (theatersNewId db))) = .ok data →
      theaterAddrQuery (data.removeField "_id") = theaterAddrQuery body ∧
      (∀ t, mongoFindOne db.theaters (theaterAddrQuery (data.removeField "_id")) = some t →
        theatersPost (some body) db freshId =
          ({ status := 400, message := some "Theater already exists" }, db, 2)) ∧
      (mongoFindOne db.theaters (theaterAddrQuery (data.removeField "_id")) = none →
        ∃ nid newDoc, theatersNewId db = some nid ∧
          (theatersPost (some body) db freshId).2.1.theaters = db.theaters ++ [newDoc] ∧
          newDoc.getField "theaterId" = some (.num nid) ∧
          (theatersPost (some body) db freshId).1 =
            { status := 201,
              data := some (.obj [("insertedId", .oid freshId), ("theaterId", .num nid)]),
              message := some "Theater created" })) := by
  refine ⟨?_, ?_, ?_⟩
  · intro h
    simp [theatersNewId, latestTheater, h]
  · intro hne
    rcases hth : db.theaters with _ | ⟨d0, rest⟩
    · exact absurd hth hne
    · have hwf2 : ∀ d ∈ db.theaters, ∃ k : Int, numKey d = some k := by
        intro d hd
        obtain ⟨k, hk⟩ := hwf d hd
        exact ⟨k, (numKey_eq_some_iff d k).mpr hk⟩
      obtain ⟨k0, hk0⟩ := hwf2 d0 (by rw [hth]; exact List.mem_cons_self _ _)
      have hrest : ∀ d ∈ rest, ∃ k : Int, numKey d = some k := fun d hd =>
        hwf2 d (by rw [hth]; exact List.mem_cons_of_mem _ hd)
      obtain ⟨m, hm, hle, _, hub, hreach⟩ := foldl_pickLatest_spec rest d0 k0 hk0 hrest
      refine ⟨m, ?_, ?_, ?_⟩
      · simp only [theatersNewId, latestTheater, hth]
        rw [(numKey_eq_some_iff _ m).mp hm]
      · rcases hreach with h | ⟨d2, hd2, hk2⟩
        · refine ⟨d0, List.mem_cons_self _ _, ?_⟩
          rw [h]
          exact (numKey_eq_some_iff d0 k0).mp hk0
        · exact ⟨d2, List.mem_cons_of_mem _ hd2, (numKey_eq_some_iff d2 m).mp hk2⟩
      · intro d hd k hk
        have hnk : numKey d = some k := (numKey_eq_some_iff d k).mpr hk
        rcases List.mem_cons.mp hd with rfl | hmem2
        · rw [hk0] at hnk
          have hkk := Option.some.inj hnk
          rw [← hkk]
          exact hle
        · exact hub d hmem2 k hnk
  · intro data hparse
    have hecho : theaterAddrQuery (data.removeField "_id") = theaterAddrQuery body := by
      have hs1 := theaterParse_addr_echo _ data "street1" rfl hparse
      have hs2 := theaterParse_addr_echo _ data "city" rfl hparse
      have hs3 := theaterParse_addr_echo _ data "state" rfl hparse
      have hs4 := theaterParse_addr_echo _ data "zipcode" rfl hparse
      have hr : ∀ f : String, (data.removeField "_id").getPath ["location", "address", f] =
          data.getPath ["location", "address", f] := fun f =>
        getPath_cons_eq _ _ _ _ (getField_removeField_ne data "_id" "location" (by decide))
      have hb : ∀ f : String,
          (body.setField "theaterId" (newIdJson (theatersNewId db))).getPath
            ["location", "address", f] = body.getPath ["location", "address", f] := fun f =>
        getPath_cons_eq _ _ _ _ (getField_setField_ne body "theaterId" _ "location" (by decide))
      simp only [theaterAddrQuery, hr, hs1, hs2, hs3, hs4, hb]
    refine ⟨hecho, ?_, ?_⟩
    · intro t hfo
      simp [theatersPost, theatersPostTry, hparse, hfo, catchZodArr]
    · intro hfo
      obtain ⟨fs, hfs, herr, hout⟩ := parseObj_ok_shape theaterSpecs _ data hparse
      have hlookin : lookupField fs "theaterId" = some (newIdJson (theatersNewId db)) := by
        cases body with
        | obj bfs =>
          simp only [Json.setField, Json.obj.injEq] at hfs
          rw [← hfs, lookupField_setFieldList_self]
        | null => simp [Json.setField] at hfs
        | bool b => simp [Json.setField] at hfs
        | num n => simp [Json.setField] at hfs
        | str s => simp [Json.setField] at hfs
        | oid i => simp [Json.setField] at hfs
        | date ms => simp [Json.setField] at hfs
        | arr xs => simp [Json.setField] at hfs
      obtain ⟨v2, hchk, hlo⟩ := runSpecs_lookup_present fs theaterSpecs "theaterId"
        ⟨"theaterId", true, chkNum⟩ (newIdJson (theatersNewId db)) rfl hlookin herr
      rcases hnid : theatersNewId db with _ | n
      · rw [hnid] at hchk
        simp [newIdJson, chkNum] at hchk
      · rw [hnid] at hchk hparse
        simp only [newIdJson] at hparse
        have hv2 : v2 = .num n := by
          have h2 : some (Json.num n) = some v2 := by simpa [newIdJson, chkNum] using hchk
          exact (Option.some.inj h2).symm
        have hdataId : data.getField "theaterId" = some (.num n) := by
          rw [hout]
          simp only [Json.getField]
          rw [hlo, hv2]
        have htNoIdId : (data.removeField "_id").getField "theaterId" = some (.num n) := by
          rw [getField_removeField_ne data "_id" "theaterId" (by decide)]
          exact hdataId
        have hnoid : (data.removeField "_id").getField "_id" = none :=
          getField_removeField_self data "_id"
        refine ⟨n, (data.removeField "_id").setField "_id" (.oid freshId), rfl, ?_, ?_, ?_⟩
        · simp [theatersPost, theatersPostTry, hparse, hnid, newIdJson, hfo, catchZodArr,
            mongoInsertOne, hnoid]
        · rw [getField_setField_ne _ "_id" _ "theaterId" (by decide)]
          exact htNoIdId
        · simp [theatersPost, theatersPostTry, hparse, hnid, newIdJson, hfo, catchZodArr,
            mongoInsertOne, hnoid]

/-- Witness for C8: id 1 on the empty collection, largest-plus-one on a
collection holding theaterId 7, a 400 duplicate rejection against a
same-address theater, and an insert carrying theaterId 8. -/
theorem claim8_witness :
    theatersNewId dbEmpty = some 1 ∧
    (∃ mx : Int, theatersNewId dbT = some (mx + 1) ∧
      (∃ d ∈ dbT.theaters, d.getField "theaterId" = some (.num mx)) ∧
      (∀ d ∈ dbT.theaters, ∀ k : Int, d.getField "theaterId" = some (.num k) → k ≤ mx)) ∧
    theatersPost (some theaterBodyW) dbT2 oidC =
      ({ status := 400, message := some "Theater already exists" }, dbT2, 2) ∧
    (∃ nid newDoc, theatersNewId dbT = some nid ∧
      (theatersPost (some theaterBodyW) dbT oidC).2.1.theaters = dbT.theaters ++ [newDoc] ∧
      newDoc.getField "theaterId" = some (.num nid) ∧
      (theatersPost (some theaterBodyW) dbT oidC).1 =
        { status := 201,
          data := some (.obj [("insertedId", .oid oidC), ("theaterId", .num nid)]),
          message := some "Theater created" }) := by
  have hE := claim8_theater_post_id_and_duplicate theaterBodyW dbEmpty oidC
    (by intro d hd; simp [dbEmpty] at hd)
  have hT := claim8_theater_post_id_and_duplicate theaterBodyW dbT oidC
    (by intro d hd; simp [dbT] at hd; exact ⟨7, by rw [hd]; rfl⟩)
  have hT2 := claim8_theater_post_id_and_duplicate theaterBodyW dbT2 oidC
    (by intro d hd; simp [dbT2] at hd; exact ⟨7, by rw [hd]; rfl⟩)
  refine ⟨hE.1 rfl, hT.2.1 (by simp [dbT]), ?_, ?_⟩
  · exact (hT2.2.2 (.obj [("theaterId", .num 8), ("location", theaterLocW)]) rfl).2.1
      theaterDupW rfl
  · exact (hT.2.2 (.obj [("theaterId", .num 8), ("location", theaterLocW)]) rfl).2.2 rfl

end CrudApi
